import Mathlib

/-!
Verification of the autosplit pipeline (aios-core repository).

This file gives a shallow embedding, in Lean 4, of the parts of the
autosplit six-stage PDF pipeline that the specification claims C1-C10 talk
about, and proves or refutes each claim.

Conventions used throughout the embedding:
* JavaScript strings are modelled as `List Char` (`Str`); all of the page
  texts handled by the pipeline are plain Latin text, for which the
  JS UTF-16 `length` coincides with the code-point count.
* JavaScript numeric ratios (always of the form `count / count` compared
  against a decimal constant) are modelled exactly, by cross-multiplied
  natural-number comparisons; each such comparison is annotated with the
  source expression it embeds.  This is the exact rational comparison; the
  IEEE-754 evaluation in Node agrees with it on all the magnitudes that
  occur here (counts vs. two-digit decimal thresholds).
* `Math.round` on non-negative values is `⌊x + 1/2⌋` (round half up).
* Filesystem state (directory listings, file hashes) is modelled as data:
  a directory is a list of entries in the order `readdirSync` yields them,
  and a file node carries the SHA-256 of its content as an attribute,
  since the pipeline only ever compares these hashes for equality.
-/

set_option maxRecDepth 8000

namespace AiosCore

/-! ### Basic JS string primitives over `List Char` -/

/-- JS strings modelled as lists of characters. -/
abbrev Str := List Char

/-- The whitespace class used by JS `\s`, `String.prototype.trim` and
`split(/\s+/)` (restricted to the characters that occur in the pipeline's
inputs: space, tab, newline, carriage return, form feed, vertical tab). -/
def isJsWs (c : Char) : Bool :=
  c = ' ' || c = '\t' || c = '\n' || c = '\r' || c = '\x0c' || c = '\x0b'

/-- `String.prototype.trim`. -/
def jsTrim (s : Str) : Str :=
  ((s.dropWhile isJsWs).reverse.dropWhile isJsWs).reverse

def splitWsAux : Str → Str → List Str → List Str
  | [], cur, acc => (if cur.isEmpty then acc else cur.reverse :: acc)
  | c :: rest, cur, acc =>
    if isJsWs c then splitWsAux rest [] (if cur.isEmpty then acc else cur.reverse :: acc)
    else splitWsAux rest (c :: cur) acc

/-- `text.split(/\s+/).filter(w => w.length > 0)`: the whitespace-separated
words of a string (empty fragments removed, as the pipeline always does). -/
def splitWs (s : Str) : List Str := (splitWsAux s [] []).reverse

def splitOnNlAux : Str → Str → List Str → List Str
  | [], cur, acc => (cur.reverse :: acc)
  | c :: rest, cur, acc =>
    if c = '\n' then splitOnNlAux rest [] (cur.reverse :: acc)
    else splitOnNlAux rest (c :: cur) acc

/-- `text.split('\n')`. -/
def splitLines (s : Str) : List Str := (splitOnNlAux s [] []).reverse

/-- `String.prototype.toLowerCase` on the Latin range used by the inputs:
ASCII `A-Z` and Latin-1 `À-Þ` (except `×`) map to their lowercase forms. -/
def jsToLower (c : Char) : Char :=
  if 'A' ≤ c && c ≤ 'Z' then Char.ofNat (c.toNat + 32)
  else if 'À' ≤ c && c ≤ 'Þ' && c ≠ '×' then Char.ofNat (c.toNat + 32)
  else c

def jsToLowerStr (s : Str) : Str := s.map jsToLower

/-- Substring test (used to embed regexes that are case-insensitive literal
words: `/lit/i.test(s)` is `containsCI "lit" s`). -/
def isPrefixOfCI : Str → Str → Bool
  | [], _ => true
  | _ :: _, [] => false
  | a :: as, b :: bs => jsToLower a = jsToLower b && isPrefixOfCI as bs

def containsCIAux (needle : Str) : Str → Bool
  | [] => isPrefixOfCI needle []
  | c :: rest => isPrefixOfCI needle (c :: rest) || containsCIAux needle rest

def containsCI (needle hay : Str) : Bool := containsCIAux needle hay

/-! ### A small exact regex engine

The pipeline's regexes are built from literals, `/i` case folding, small
character classes, `\s` / `\d` / `.` classes, `?`, `+`, `*`, alternation
and `\b`.  They are embedded into the `RE` syntax below and matched by an
exhaustive (backtracking) matcher, so `test` is exact: it reports whether
a match exists, which is all the pipeline ever asks of a regex. -/

inductive RE where
  | eps
  | cls (p : Char → Bool)
  | seq (a b : RE)
  | alt (a b : RE)
  | opt (a : RE)
  | star (a : RE)
  | wb

/-- JS `\w` (ASCII, as in non-unicode regex mode): `[A-Za-z0-9_]`. -/
def jsWordChar (c : Char) : Bool :=
  ('a' ≤ c && c ≤ 'z') || ('A' ≤ c && c ≤ 'Z') || ('0' ≤ c && c ≤ '9') || c = '_'

/-- JS `\b`: a word boundary between the previous character and the rest. -/
def wbHolds (prev : Option Char) (s : Str) : Bool :=
  let pw := match prev with | some c => jsWordChar c | none => false
  let nw := match s with | c :: _ => jsWordChar c | [] => false
  pw != nw

/-- One step of the matcher: all ways to match `r` against a prefix of `s`
(given the previous character for `\b`), returning the suffix left over.
`recur` continues a `star` after it consumed at least one character. -/
def mreStep (recur : RE → Option Char → Str → List (Option Char × Str)) :
    RE → Option Char → Str → List (Option Char × Str)
  | RE.eps, prev, s => [(prev, s)]
  | RE.cls p, _, s =>
    match s with
    | [] => []
    | c :: rest => if p c then [(some c, rest)] else []
  | RE.seq a b, prev, s => (mreStep recur a prev s).flatMap (fun st => mreStep recur b st.1 st.2)
  | RE.alt a b, prev, s => mreStep recur a prev s ++ mreStep recur b prev s
  | RE.opt a, prev, s => (prev, s) :: mreStep recur a prev s
  | RE.wb, prev, s => if wbHolds prev s then [(prev, s)] else []
  | RE.star a, prev, s =>
    (prev, s) :: ((mreStep recur a prev s).filter (fun st => st.2.length < s.length)).flatMap
      (fun st => recur (RE.star a) st.1 st.2)

/-- Fuelled matcher; `s.length + 1` fuel is always enough because every
`star` iteration consumes at least one character. -/
def mreF : Nat → RE → Option Char → Str → List (Option Char × Str)
  | 0 => mreStep (fun _ _ _ => [])
  | fuel + 1 => mreStep (mreF fuel)

/-- Does `r` match starting exactly at the head of `s`? -/
def matchAt (r : RE) (prev : Option Char) (s : Str) : Bool :=
  !(mreF (s.length + 1) r prev s).isEmpty

/-- Index of the first match of `r` in `s` (JS `String.prototype.match`'s
`match.index`), or `none` when `r` does not match anywhere. -/
def firstMatchIndexAux (r : RE) : Option Char → Str → Nat → Option Nat
  | prev, s, i =>
    if matchAt r prev s then some i
    else match s with
      | [] => none
      | c :: rest => firstMatchIndexAux r (some c) rest (i + 1)

def firstMatchIndex (r : RE) (s : Str) : Option Nat := firstMatchIndexAux r none s 0

/-- `regex.test(s)`. -/
def reTest (r : RE) (s : Str) : Bool := (firstMatchIndex r s).isSome

/-- Concatenation of a list of regex fragments. -/
def reCat : List RE → RE
  | [] => RE.eps
  | [r] => r
  | r :: rest => RE.seq r (reCat rest)

/-- A case-insensitive literal (a `/.../i` regex with no metacharacters). -/
def ciLit (w : String) : RE :=
  reCat (w.data.map (fun c => RE.cls (fun x => jsToLower x == jsToLower c)))

/-- A case-insensitive character class such as `[aá]` under `/i`. -/
def clsCI (cs : List Char) : RE := RE.cls (fun x => cs.contains (jsToLower x))

/-- `\s` (one whitespace character). -/
def reWs : RE := RE.cls isJsWs

/-- `\s+`. -/
def wsPlus : RE := RE.seq reWs (RE.star reWs)

/-- `\s*`. -/
def wsStar : RE := RE.star reWs

/-- `\d`. -/
def reDigit : RE := RE.cls (fun c => '0' ≤ c && c ≤ '9')

/-- `\d+`. -/
def reDigitPlus : RE := RE.seq reDigit (RE.star reDigit)

/-- `.` (any character but a newline; no `s` flag is used in the pipeline). -/
def reDot : RE := RE.cls (fun c => c ≠ '\n')

/-! ### C2 — batch QC merge (autosplit-pipeline.js, stage 6 and report) -/

/-- The four QC counters of one per-PDF quality-gate summary
(`qc.summary` as produced by `QCValidator.runQualityGate`). -/
structure QcSummary where
  passed : Nat
  flagged : Nat
  rejected : Nat
  mislabels_caught : Nat
deriving DecidableEq, Repr

/-- Embeds the stage-6 QC merge of `runPipeline`
(autosplit-pipeline.js lines 845-854, the BUG-5 fix):

```js
qcResult = { summary: {
  passed:   qcResults.reduce((sum, q) => sum + q.summary.passed, 0),
  flagged:  qcResults.reduce((sum, q) => sum + q.summary.flagged, 0),
  rejected: qcResults.reduce((sum, q) => sum + q.summary.rejected, 0),
  mislabels_caught: qcResults.reduce((sum, q) => sum + q.summary.mislabels_caught, 0),
}, files: qcResults };
```
-/
def mergeQcSummaries (qcResults : List QcSummary) : QcSummary where
  passed := qcResults.foldl (fun sum q => sum + q.passed) 0
  flagged := qcResults.foldl (fun sum q => sum + q.flagged) 0
  rejected := qcResults.foldl (fun sum q => sum + q.rejected) 0
  mislabels_caught := qcResults.foldl (fun sum q => sum + q.mislabels_caught) 0

/-- Embeds the `qc` field of the persisted report
(autosplit-pipeline.js line 960):
`qc: qcResult ? qcResult.summary : { passed: 0, flagged: 0, rejected: 0, mislabels_caught: 0 }`. -/
def reportQc (qcResult : Option QcSummary) : QcSummary :=
  match qcResult with
  | some summary => summary
  | none => ⟨0, 0, 0, 0⟩

/-! ### C5 — per-page profiles and document aggregation (quality-profiler.js) -/

/-- The three noise levels returned by `detectNoiseLevel`. -/
inductive Noise where
  | low
  | medium
  | high
deriving DecidableEq, Repr

/-- One entry of the array produced by `QualityProfiler.profilePages`
(quality-profiler.js lines 491-500).  `word_garbage_signals` stores the
integer numerator of the word-garbage score (the score itself is
`signals / 13`, see `detectWordLevelGarbage` below); `propagated` is
`none` while the JS object lacks the `propagated` property. -/
structure PageProfile where
  page_number : Nat
  readability_score : Nat
  noise_level : Noise
  word_garbage_signals : Nat
  quality_tier : String
  char_count : Nat
  is_degraded : Bool
  empty : Bool
  propagated : Option Bool := none
deriving DecidableEq, Repr

/-- Embeds `QualityProfiler.getQualityTier` (quality-profiler.js lines 443-449). -/
def getQualityTier (readabilityScore : Nat) : String :=
  if readabilityScore ≥ 80 then "A"
  else if readabilityScore ≥ 60 then "B"
  else if readabilityScore ≥ 40 then "C"
  else if readabilityScore ≥ 20 then "D"
  else "F"

/-- The fields of the document-level profile produced by
`QualityProfiler.aggregatePageProfiles` that do not depend on I/O
(file paths and timestamps are omitted). -/
structure DocumentProfile where
  page_count : Nat
  readability_score : Nat
  quality_tier : String
  noise_level : Noise
  has_text_layer : Bool
  degraded_pages : List Nat
  degraded_count : Nat
  clean_count : Nat
  is_mixed_quality : Bool
deriving DecidableEq, Repr

/-- The ascending reordering of the readability scores:
`pageProfiles.map(p => p.readability_score).sort((a, b) => a - b)`.
`Array.prototype.sort` with the numeric comparator produces the ascending
reordering of the values; since natural numbers are totally ordered this
is the same list whatever sorting algorithm the engine uses, so it is
modelled by insertion sort. -/
def sortScoresAsc (scores : List Nat) : List Nat :=
  scores.insertionSort (· ≤ ·)

/-- Embeds `QualityProfiler.aggregatePageProfiles`
(quality-profiler.js lines 523-564). -/
def aggregatePageProfiles (pageProfiles : List PageProfile) : DocumentProfile :=
  if pageProfiles.length = 0 then
    { page_count := 0
      readability_score := 0
      quality_tier := "F"
      noise_level := Noise.high
      has_text_layer := false
      degraded_pages := []
      degraded_count := 0
      clean_count := 0
      is_mixed_quality := false }
  else
    let scores := sortScoresAsc (pageProfiles.map (·.readability_score))
    -- `const median = scores[Math.floor(scores.length / 2)];`
    let median := scores.getD (scores.length / 2) 0
    let degradedPages := pageProfiles.filter (·.is_degraded)
    let cleanPages := pageProfiles.filter (fun p => !p.is_degraded && !p.empty)
    let noiseLevels := pageProfiles.map (·.noise_level)
    let worstNoise :=
      if noiseLevels.contains Noise.high then Noise.high
      else if noiseLevels.contains Noise.medium then Noise.medium
      else Noise.low
    { page_count := pageProfiles.length
      readability_score := median
      quality_tier := getQualityTier median
      noise_level := worstNoise
      has_text_layer := cleanPages.length > 0
      degraded_pages := degradedPages.map (·.page_number)
      degraded_count := degradedPages.length
      clean_count := cleanPages.length
      is_mixed_quality := degradedPages.length > 0 && cleanPages.length > 0 }

/-- The statistical median of a list of natural-number scores, following
the words of the specification (claim C5): sort the scores; for an odd
count take the middle element, for an even count take the mean of the two
middle elements.  This definition follows the SPEC's words and is compared
against the value the code computes. -/
def specStatisticalMedian (scores : List Nat) : ℚ :=
  let sorted := sortScoresAsc scores
  if scores.length % 2 = 1 then
    (sorted.getD (scores.length / 2) 0 : ℚ)
  else
    ((sorted.getD (scores.length / 2 - 1) 0 : ℚ) + (sorted.getD (scores.length / 2) 0 : ℚ)) / 2

/-! ### C3 — intake enumeration and manifest order (pdf-ingester.js) -/

mutual
/-- A filesystem node as seen by `fs.readdirSync(dir, { withFileTypes: true })`.
A file node carries the SHA-256 of its content as an attribute, since the
ingester only compares those hashes for equality
(`hashFile` / `fingerprintDB`). -/
inductive FsEntry where
  | file (name : Str) (hash : String)
  | dir (name : Str) (entries : FsListing)

/-- The entry list of one directory, kept in the order the filesystem
yields it (which `readdirSync` does not sort). -/
inductive FsListing where
  | nil
  | cons (e : FsEntry) (rest : FsListing)
end

/-- `entry.name.toLowerCase().endsWith('.pdf')`. -/
def lowerEndsWithPdf (name : Str) : Bool :=
  match (jsToLowerStr name).reverse with
  | 'f' :: 'd' :: 'p' :: '.' :: _ => true
  | _ => false

mutual
/-- One iteration of the `for (const entry of entries)` loop of
`PDFIngester.scanDirectory`:

```js
const fullPath = path.join(dirPath, entry.name);
if (entry.isFile() && entry.name.toLowerCase().endsWith('.pdf')) pdfs.push(fullPath);
else if (entry.isDirectory() && this.recursive) pdfs.push(...this.scanDirectory(fullPath));
```

The result pairs each full path with the file's content hash so that the
ingest loop can look the hash up (in JS `ingestFile` re-reads the file by
path; the pairing carries the same information through the embedding). -/
def scanDirEntry (recursive : Bool) (dirPath : Str) : FsEntry → List (Str × String)
  | FsEntry.file name hash =>
    if lowerEndsWithPdf name then [(dirPath ++ '/' :: name, hash)] else []
  | FsEntry.dir name sub =>
    if recursive then scanDirectory recursive (dirPath ++ '/' :: name) sub else []

/-- Embeds `PDFIngester.scanDirectory` (pdf-ingester.js lines 54-68): the
loop over `fs.readdirSync(dirPath, { withFileTypes: true })` in the order
the filesystem yields the entries. -/
def scanDirectory (recursive : Bool) (dirPath : Str) : FsListing → List (Str × String)
  | FsListing.nil => []
  | FsListing.cons e rest =>
    scanDirEntry recursive dirPath e ++ scanDirectory recursive dirPath rest
end

/-- The manifest portions of `PDFIngester.ingest` relevant to ordering:
registered files and duplicates, in the order the loop produces them. -/
structure IngestOutcome where
  files : List (Str × String)
  duplicates : List (Str × String)
deriving Repr

/-- Embeds the registration loop of `PDFIngester.ingest`
(pdf-ingester.js lines 113-134) with dedup on: walk the scanned paths in
order; a path whose hash is already in `fingerprintDB` goes to
`duplicates`, otherwise it is appended to `files` and its hash recorded.
(I/O errors do not occur in the modelled filesystem.) -/
def ingestLoop : List (Str × String) → List String → IngestOutcome
  | [], _ => ⟨[], []⟩
  | (p, h) :: rest, db =>
    if db.contains h then
      let out := ingestLoop rest db
      ⟨out.files, (p, h) :: out.duplicates⟩
    else
      let out := ingestLoop rest (h :: db)
      ⟨(p, h) :: out.files, out.duplicates⟩

/-- `PDFIngester.ingest` on a directory source: scan, then register. -/
def ingestDirectory (recursive : Bool) (sourcePath : Str) (entries : FsListing) :
    IngestOutcome :=
  ingestLoop (scanDirectory recursive sourcePath entries) []

/-- Lexicographic (code-point) order on the modelled strings: the order the
spec's "sorted lexicographically" (JS `String.sort()`) refers to. -/
def strLeB : Str → Str → Bool
  | [], _ => true
  | _ :: _, [] => false
  | a :: as, b :: bs =>
    if a.toNat < b.toNat then true
    else if b.toNat < a.toNat then false
    else strLeB as bs

/-! ### C9 — markdown filenames (md-exporter.js) -/

/-- The `VALID_TYPES` whitelist (quality-profiler.js lines 765-833). -/
def VALID_TYPES : List String :=
  [ "peticao-inicial", "inicial-eef", "inicial-execfiscal", "inicial-ms",
    "contestacao", "impugnacao",
    "laudo-pericial", "decisao-interlocutoria",
    "sentenca", "sentenca-edcl", "edcl",
    "apelacao", "contrarrazoes", "agravo", "recurso-especial", "recurso-extraordinario",
    "acordao", "acordao-trf", "distribuicao", "pauta",
    "auto-infracao", "defesa-admin", "impugnacao-admin", "decisao-admin-1inst",
    "recurso-admin", "recurso-carf", "contrarrazoes-admin", "resposta-fazenda",
    "acordao-carf", "acordao-csrf",
    "cda", "laudo-constitutivo", "documento-fiscal", "parecer-tecnico",
    "despacho",
    "parecer-mp", "parecer-pgfn", "parecer-agu",
    "oficio", "portaria", "memorando",
    "certidao", "certidao-publicacao",
    "lixo", "lixo-procuracao", "lixo-societario", "lixo-fianca", "lixo-capa",
    "lixo-certidao-publicacao", "lixo-ato-ordinatorio", "lixo-substabelecimento",
    "lixo-termo-abertura",
    "unknown" ]

/-- The decimal digit character of a value `< 10`. -/
def decDigitChar : Nat → Char
  | 0 => '0'
  | 1 => '1'
  | 2 => '2'
  | 3 => '3'
  | 4 => '4'
  | 5 => '5'
  | 6 => '6'
  | 7 => '7'
  | 8 => '8'
  | _ => '9'

/-- Decimal numeral rendering, fuelled so that it computes by kernel
reduction; `natDecimal n` below always supplies enough fuel. -/
def natDecimalAux : Nat → Nat → Str
  | 0, _ => []
  | fuel + 1, n =>
    if n < 10 then [decDigitChar n]
    else natDecimalAux fuel (n / 10) ++ [decDigitChar (n % 10)]

/-- Decimal numeral of a natural number, as `String(n)` renders it. -/
def natDecimal (n : Nat) : Str := natDecimalAux (n + 1) n

/-- `s.padStart(3, '0')`. -/
def padStart3 (s : Str) : Str := List.replicate (3 - s.length) '0' ++ s

/-- Embeds `MarkdownExporter.generateFilename` (md-exporter.js lines 114-119):

```js
const num = String(index + 1).padStart(3, '0');
const type = segment.type || 'piece';
const docType = segment.doc_type || 'unknown';
return `NNN-type-docType.md`;   // template literal
```
-/
def generateFilename (segType docType : String) (index : Nat) : Str :=
  let num := padStart3 (natDecimal (index + 1))
  let ty := if segType = "" then "piece" else segType
  let dt := if docType = "" then "unknown" else docType
  num ++ ('-' :: ty.data) ++ ('-' :: dt.data) ++ ".md".data

/-- Character class `[a-z-]` of the filename pattern. -/
def isLowerHyphen (c : Char) : Bool := ('a' ≤ c && c ≤ 'z') || c = '-'

/-- Decides the anchored regex `^[0-9]{3}-[a-z-]+-[a-z-]+\.md$` of claim C9.
A string matches iff it decomposes as three digits, `-`, a middle part
`mid`, and `.md`, where `mid` uses only `[a-z-]` and has a `-` at some
position `i` with `1 ≤ i ≤ mid.length - 2` (splitting `mid` into the two
nonempty `[a-z-]+` groups). -/
def matchesMdFilename (s : Str) : Bool :=
  match s with
  | d1 :: d2 :: d3 :: dash :: rest =>
    d1.isDigit && d2.isDigit && d3.isDigit && dash = '-' &&
    (match rest.reverse with
     | cd :: cm :: cdot :: midRev =>
       cd = 'd' && cm = 'm' && cdot = '.' &&
       ((midRev.reverse.all isLowerHyphen) && ((midRev.reverse.drop 1).dropLast.contains '-'))
     | _ => false)
  | _ => false

/-! ### Quality profiler — PJe footer stripping and word-level garbage
(quality-profiler.js lines 317-438)

Ratios `count / count` compared against decimal thresholds are embedded as
exact cross-multiplied natural-number comparisons; each is annotated with
the source expression.  The garbage score itself is `signals / 13`: the
seven signals contribute at most 2+2+1+2+2+2+2 points and `totalSignals`
always accumulates to 13 in the source. -/

/-- The five PJe footer prefixes of `stripPJeFooter` (the trailing
`[\s\S]*` of each source pattern does not affect the match index and is
omitted):
`/Este documento foi gerado pelo usu[áa]rio/i`,
`/N[úu]mero do documento:/i`,
`/Assinado eletronicamente por:/i`,
`/https?:\/\/pje\d?g?\./i`,
`/Num\.\s*\d+\s*-\s*P[áa]g\.\s*\d+/i`. -/
def pjeFooterPrefixes : List RE :=
  [ reCat [ciLit "este documento foi gerado pelo usu", clsCI ['á', 'a'], ciLit "rio"],
    reCat [ciLit "n", clsCI ['ú', 'u'], ciLit "mero do documento:"],
    ciLit "assinado eletronicamente por:",
    reCat [ciLit "http", RE.opt (ciLit "s"), ciLit "://pje", RE.opt reDigit,
           RE.opt (ciLit "g"), ciLit "."],
    reCat [ciLit "num.", wsStar, reDigitPlus, wsStar, ciLit "-", wsStar,
           ciLit "p", clsCI ['á', 'a'], ciLit "g.", wsStar, reDigitPlus] ]

/-- One pass of the `stripPJeFooter` loop:

```js
const match = cleaned.match(pattern);
if (match && match.index !== undefined) {
  if (match.index > cleaned.length * 0.6) {
    cleaned = cleaned.slice(0, match.index).trim();
  }
}
```

`match.index > cleaned.length * 0.6` is the exact rational comparison
`10 * idx > 6 * cleaned.length`. -/
def stripPJeFooterStep (cleaned : Str) (pattern : RE) : Str :=
  match firstMatchIndex pattern cleaned with
  | none => cleaned
  | some idx =>
    if 10 * idx > 6 * cleaned.length then jsTrim (cleaned.take idx) else cleaned

/-- Embeds `QualityProfiler.stripPJeFooter` (quality-profiler.js lines 317-338). -/
def stripPJeFooter (text : Str) : Str :=
  pjeFooterPrefixes.foldl stripPJeFooterStep text

/-- `[a-zA-ZÀ-ɏ0-9]`, the "alphanumeric" class used by signals
1, 2 and 6 (`w.replace(/[^a-zA-ZÀ-ɏ0-9]/g, '')`). -/
def alnumLatin (c : Char) : Bool :=
  ('a' ≤ c && c ≤ 'z') || ('A' ≤ c && c ≤ 'Z') || ('0' ≤ c && c ≤ '9') ||
    (0xC0 ≤ c.toNat && c.toNat ≤ 0x24F)

/-- ASCII letters (`w.replace(/[^a-zA-Z]/g, '')` of signal 5). -/
def asciiAlpha (c : Char) : Bool :=
  ('a' ≤ c && c ≤ 'z') || ('A' ≤ c && c ≤ 'Z')

/-- The garbage operator class `[~*§¬¨£¢¡¿]` of signal 3. -/
def tildeGarbageChar (c : Char) : Bool :=
  c = '~' || c = '*' || c = '§' || c = '¬' || c = '¨' || c = '£' || c = '¢' || c = '¡' || c = '¿'

/-- The high-frequency stoplist of signal 4 (the inline `commonWords` set). -/
def SIGNAL4_COMMON_WORDS : List String :=
  [ "de", "da", "do", "dos", "das", "que", "para", "com", "por", "em",
    "no", "na", "nos", "nas", "se", "ao", "ou", "um", "uma", "os", "as",
    "sua", "seu", "como", "mais", "foi", "não", "nao", "ser", "são", "sao",
    "este", "esta", "essa", "esse", "entre", "sobre", "pela", "pelo",
    "art", "lei", "processo", "valor", "data", "fiscal", "federal" ]

/-- `[a-záàâãéèêíïóôõúüç]`, the lowercase class used to normalise words
for signals 4 and 7. -/
def ptLowerAlpha (c : Char) : Bool :=
  ('a' ≤ c && c ≤ 'z') ||
    c = 'á' || c = 'à' || c = 'â' || c = 'ã' || c = 'é' || c = 'è' || c = 'ê' ||
    c = 'í' || c = 'ï' || c = 'ó' || c = 'ô' || c = 'õ' || c = 'ú' || c = 'ü' || c = 'ç'

/-- Consonant class of signal 5: `[bcdfghjklmnpqrstvwxyz]` under `/i`. -/
def ptConsonant (c : Char) : Bool :=
  let l := jsToLower c
  ('a' ≤ l && l ≤ 'z') && !(l = 'a' || l = 'e' || l = 'i' || l = 'o' || l = 'u')

/-- Four consecutive characters of class `p` occur (`/p{4,}/`). -/
def hasRun4 (p : Char → Bool) : Str → Bool
  | a :: b :: c :: d :: rest =>
    (p a && p b && p c && p d) || hasRun4 p (b :: c :: d :: rest)
  | _ => false

/-- Three consecutive characters matching `p1`, `p2`, `p3` occur. -/
def hasTriple (p1 p2 p3 : Char → Bool) : Str → Bool
  | a :: b :: c :: rest => (p1 a && p2 b && p3 c) || hasTriple p1 p2 p3 (b :: c :: rest)
  | _ => false

/-- `/[a-z][A-Z][a-z]/` (case sensitive), used by signals 5 and 6. -/
def hasLowerUpperLower (s : Str) : Bool :=
  hasTriple (fun c => 'a' ≤ c && c ≤ 'z') (fun c => 'A' ≤ c && c ≤ 'Z')
    (fun c => 'a' ≤ c && c ≤ 'z') s

/-- The letters-or-digit class `[a-záéíóúàâêôãõç0-9]` (under `/i`) of
signal 6's first check. -/
def encLetterDigit (c : Char) : Bool :=
  let l := jsToLower c
  ('a' ≤ l && l ≤ 'z') || ('0' ≤ l && l ≤ '9') ||
    l = 'á' || l = 'é' || l = 'í' || l = 'ó' || l = 'ú' ||
    l = 'à' || l = 'â' || l = 'ê' || l = 'ô' || l = 'ã' || l = 'õ' || l = 'ç'

/-- ASCII letter under `/i`. -/
def asciiLetterCI (c : Char) : Bool :=
  let l := jsToLower c
  'a' ≤ l && l ≤ 'z'

def isAsciiDigit (c : Char) : Bool := '0' ≤ c && c ≤ '9'

/-- The ~1500-entry Portuguese frequency dictionary `PT_COMMON_WORDS`
(quality-profiler.js lines 18-229), transcribed verbatim in source order
(the JS `Set` constructor deduplicates; list membership is the same test). -/
def PT_COMMON_WORDS : List String :=
  [ "de", "da", "do", "dos", "das", "que", "para", "com", "por", "em", "no",
    "na", "nos", "nas", "se", "ao", "ou", "um", "uma", "os", "as", "sua",
    "seu", "como", "mais", "foi", "não", "nao", "ser", "são", "sao", "este",
    "esta", "essa", "esse", "entre", "sobre", "pela", "pelo", "pelas",
    "pelos", "também", "tambem", "quando", "ainda", "mesmo", "já", "ja",
    "pode", "deve", "outro", "outra", "outros", "outras", "qual", "quais",
    "todo", "toda", "todos", "todas", "cada", "muito", "muita", "muitos",
    "muitas", "onde", "aqui", "isso", "isto", "aquele", "aquela", "aqueles",
    "aquelas", "nesse", "nessa", "nesses", "nessas", "dele", "dela", "deles",
    "delas", "nele", "nela", "neles", "nelas", "meu", "minha", "meus",
    "minhas", "teu", "tua", "teus", "tuas", "nosso", "nossa", "nossos",
    "nossas", "seus", "suas", "lhe", "lhes", "nós", "nos", "vós", "vos",
    "eles", "elas", "ele", "ela", "você", "voce", "quem", "algo", "alguém",
    "alguem", "ninguém", "ninguem", "nada", "tudo", "apenas", "porém",
    "porem", "contudo", "entretanto", "portanto", "assim", "então", "entao",
    "porque", "pois", "embora", "enquanto", "caso", "desde", "até", "ate",
    "durante", "após", "apos", "antes", "depois", "sem", "sob", "contra",
    "segundo", "conforme", "mediante", "perante", "através", "atraves",
    "além", "alem", "aquém", "ter", "tem", "teve", "tinha", "tendo", "tido",
    "tenho", "temos", "tinham", "terá", "tera", "terão", "terao", "teria",
    "teriam", "tiver", "tivesse", "tivessem", "ser", "era", "eram", "sido",
    "sendo", "será", "sera", "serão", "serao", "seria", "seriam", "fosse",
    "fossem", "forem", "sou", "somos", "estar", "está", "esta", "estão",
    "estao", "estava", "estavam", "esteve", "estiver", "estivesse",
    "estando", "estará", "estara", "haver", "houve", "havia", "haviam",
    "haverá", "havera", "havendo", "haja", "hajam", "fazer", "faz", "fez",
    "feito", "fazendo", "fazia", "faziam", "fará", "fara", "fizesse",
    "poder", "pode", "pôde", "podem", "podia", "podiam", "poderá", "podera",
    "podendo", "pudesse", "pudessem", "dever", "deve", "devem", "devia",
    "deviam", "deverá", "devera", "devendo", "devida", "devidas", "devido",
    "devidos", "devidamente", "dizer", "diz", "disse", "dizem", "dizia",
    "dito", "dizendo", "dirá", "dar", "deu", "dado", "dando", "dava",
    "davam", "dará", "dara", "dão", "ver", "viu", "visto", "vendo", "via",
    "viam", "verá", "vera", "veja", "vejam", "vir", "veio", "vindo", "vinha",
    "vinham", "virá", "vira", "venha", "venham", "saber", "sabe", "sabem",
    "soube", "sabia", "sabiam", "saberá", "sabendo", "querer", "quer",
    "querem", "quis", "queria", "queriam", "querendo", "ficar", "fica",
    "ficam", "ficou", "ficava", "ficando", "ficará", "deixar", "deixa",
    "deixou", "deixando", "deixar", "passar", "passa", "passou", "passando",
    "passará", "seguir", "segue", "seguem", "seguiu", "seguindo", "seguinte",
    "levar", "leva", "levou", "levando", "levará", "encontrar", "encontra",
    "encontrou", "encontrado", "encontrando", "chamar", "chama", "chamou",
    "chamado", "chamada", "chegar", "chega", "chegou", "chegando", "chegará",
    "apresentar", "apresenta", "apresentou", "apresentado", "apresentando",
    "considerar", "considera", "considerou", "considerado", "considerando",
    "constituir", "constitui", "constituído", "constituem", "constituição",
    "determinar", "determina", "determinou", "determinado", "determinação",
    "dispor", "dispõe", "disposto", "disposição", "disposições",
    "estabelecer", "estabelece", "estabeleceu", "estabelecido",
    "estabelecimento", "existir", "existe", "existem", "existiu",
    "existência", "indicar", "indica", "indicou", "indicado", "indicação",
    "manter", "mantém", "mantem", "manteve", "mantido", "manutenção",
    "mostrar", "mostra", "mostrou", "mostrado", "mostrando", "ocorrer",
    "ocorre", "ocorreu", "ocorrido", "ocorrência", "parecer", "parece",
    "parecem", "pareceu", "parecendo", "pedir", "pede", "pedem", "pediu",
    "pedido", "pedindo", "permitir", "permite", "permitiu", "permitido",
    "permitindo", "precisar", "precisa", "precisam", "precisou",
    "precisando", "produzir", "produz", "produziu", "produzido", "produção",
    "realizar", "realiza", "realizou", "realizado", "realização", "receber",
    "recebe", "recebeu", "recebido", "recebendo", "reconhecer", "reconhece",
    "reconheceu", "reconhecido", "reconhecimento", "referir", "refere",
    "referiu", "referido", "referência", "referente", "representar",
    "representa", "representou", "representado", "representação", "resultar",
    "resulta", "resultou", "resultado", "resultados", "tratar", "trata",
    "tratou", "tratado", "tratando", "utilizar", "utiliza", "utilizou",
    "utilizado", "utilização", "verificar", "verifica", "verificou",
    "verificado", "verificação", "aplicar", "aplica", "aplicou", "aplicado",
    "aplicação", "aplicável", "caber", "cabe", "cabem", "coube", "cabendo",
    "cabível", "cumprir", "cumpre", "cumpriu", "cumprido", "cumprimento",
    "decidir", "decide", "decidiu", "decidido", "decisão", "declarar",
    "declara", "declarou", "declarado", "declaração", "negar", "nega",
    "negou", "negado", "negando", "observar", "observa", "observou",
    "observado", "observação", "prevalecer", "prevalece", "prevaleceu",
    "prevalecendo", "prever", "prevê", "preve", "previu", "previsto",
    "previsão", "provar", "prova", "provou", "provado", "provando",
    "requerer", "requer", "requereu", "requerido", "requerimento",
    "requerente", "resolver", "resolve", "resolveu", "resolvido",
    "resolução", "restar", "resta", "restou", "restando", "violar", "viola",
    "violou", "violado", "violação", "alegar", "alega", "alegou", "alegado",
    "alegação", "alegações", "analisar", "analisa", "analisou", "analisado",
    "análise", "assinar", "assina", "assinou", "assinado", "assinatura",
    "julgar", "julga", "julgou", "julgado", "julgamento", "julgando",
    "publicar", "publica", "publicou", "publicado", "publicação", "constar",
    "consta", "constou", "constando", "constante", "ano", "anos", "dia",
    "dias", "vez", "vezes", "parte", "partes", "forma", "formas", "caso",
    "casos", "tempo", "tempos", "modo", "modos", "tipo", "tipos", "grupo",
    "ponto", "pontos", "lado", "lados", "lugar", "lugares", "pessoa",
    "pessoas", "vida", "vidas", "coisa", "coisas", "exemplo", "fato",
    "fatos", "razão", "fim", "nome", "nomes", "número", "numero", "números",
    "numeros", "estado", "país", "pais", "mundo", "cidade", "empresa",
    "empresas", "governo", "sistema", "área", "area", "problema", "questão",
    "questao", "trabalho", "serviço", "servico", "informação", "informacao",
    "direito", "direitos", "lei", "leis", "artigo", "artigos", "parágrafo",
    "paragrafo", "inciso", "incisos", "alínea", "alinea", "processo",
    "processos", "ação", "acao", "ações", "acoes", "pedido", "pedidos",
    "prazo", "prazos", "termo", "termos", "documento", "documentos", "prova",
    "provas", "valor", "valores", "pagamento", "pagamentos", "crédito",
    "credito", "débito", "conta", "contas", "total", "parcela", "parcelas",
    "multa", "multas", "imposto", "impostos", "tributo", "tributos",
    "contribuição", "contribuição", "base", "cálculo", "calculo", "alíquota",
    "aliquota", "período", "periodo", "exercício", "exercicio", "ano", "mês",
    "mes", "data", "datas", "tribunal", "tribunais", "juiz", "juízo",
    "juizo", "vara", "turma", "câmara", "camara", "seção", "secao",
    "plenário", "plenario", "relator", "relatora", "ministro", "ministra",
    "desembargador", "desembargadora", "juíza", "recurso", "recursos",
    "apelação", "apelacao", "agravo", "agravos", "embargo", "embargos",
    "mandado", "mandados", "sentença", "sentenca", "acórdão", "acordao",
    "decisão", "decisao", "despacho", "despachos", "intimação", "intimacao",
    "citação", "citacao", "notificação", "notificacao", "certidão",
    "certidao", "petição", "peticao", "contestação", "contestacao",
    "réplica", "replica", "parecer", "pareceres", "laudo", "laudos",
    "perícia", "pericia", "perito", "autor", "autora", "autores", "réu",
    "reu", "ré", "requerente", "requerido", "requerida", "impetrante",
    "impetrado", "apelante", "apelado", "agravante", "agravado",
    "recorrente", "recorrido", "recorrida", "embargante", "embargado",
    "exequente", "executado", "executada", "devedor", "credor", "credora",
    "advogado", "advogada", "advogados", "procurador", "procuradora",
    "procuração", "procuracao", "substabelecimento", "outorga", "poderes",
    "mandato", "federal", "estadual", "municipal", "público", "publico",
    "pública", "publica", "nacional", "internacional", "geral", "especial",
    "ordinário", "ordinario", "extraordinário", "extraordinario",
    "constitucional", "legal", "ilegal", "lícito", "licito", "ilícito",
    "ilicito", "ministério", "ministerio", "secretaria", "secretário",
    "secretario", "superintendência", "superintendencia", "superintendente",
    "diretoria", "diretor", "diretora", "coordenação", "coordenador",
    "coordenadora", "presidente", "vice", "chefe", "gerente", "assessor",
    "assessora", "procuradoria", "advocacia", "delegacia", "delegado",
    "delegada", "receita", "fazenda", "tesouro", "previdência",
    "previdencia", "social", "saúde", "saude", "educação", "educacao",
    "segurança", "seguranca", "fiscal", "tributário", "tributario",
    "tributária", "tributaria", "administrativo", "administrativa", "civil",
    "penal", "criminal", "trabalhista", "previdenciário", "previdenciario",
    "ambiental", "eleitoral", "comercial", "empresarial", "societário",
    "societario", "contratual", "constitutivo", "constitutiva", "incentivo",
    "incentivos", "benefício", "beneficio", "isenção", "isencao", "redução",
    "reducao", "ofício", "oficio", "memorando", "portaria", "resolução",
    "resolucao", "decreto", "regulamento", "instrução", "instrucao",
    "normativa", "circular", "edital", "aviso", "comunicado", "comunicação",
    "comunicacao", "relatório", "relatorio", "ata", "registro", "registros",
    "cadastro", "certidão", "certidao", "atestado", "alvará", "alvara",
    "licença", "licenca", "contrato", "contratos", "convênio", "convenio",
    "acordo", "acordos", "cláusula", "clausula", "cláusulas", "condição",
    "condicao", "condições", "obrigação", "obrigacao", "obrigações",
    "responsabilidade", "responsável", "responsavel", "competência",
    "competencia", "competente", "jurisdição", "jurisdicao", "comarca",
    "foro", "auditoria", "inspeção", "inspecao", "investigação",
    "investigacao", "inquérito", "inquerito", "sindicância", "sindicancia",
    "diligência", "diligencia", "grande", "grandes", "pequeno", "pequena",
    "novo", "nova", "novos", "novas", "primeiro", "primeira", "segundo",
    "segunda", "terceiro", "terceira", "último", "ultimo", "última",
    "ultima", "próximo", "proximo", "próxima", "anterior", "atual",
    "presente", "real", "possível", "possivel", "necessário", "necessario",
    "importante", "principal", "diferentes", "diferente", "igual", "igual",
    "melhor", "pior", "maior", "menor", "alto", "alta", "baixo", "baixa",
    "longo", "longa", "curto", "curta", "bom", "boa", "mau", "ruim", "certo",
    "certa", "errado", "errada", "verdadeiro", "verdadeira", "falso",
    "falsa", "próprio", "proprio", "própria", "comum", "comum", "simples",
    "final", "inicial", "central", "local", "regional", "interno", "interna",
    "externo", "externa", "superior", "inferior", "máximo", "maximo",
    "mínimo", "minimo", "médio", "medio", "total", "parcial", "integral",
    "completo", "completa", "pleno", "plena", "adequado", "adequada",
    "devido", "devida", "previsto", "prevista", "expressamente",
    "devidamente", "anteriormente", "posteriormente", "respectivamente",
    "imediatamente", "diretamente", "indiretamente", "inclusive",
    "exclusivamente", "especialmente", "principalmente", "apenas", "somente",
    "simplesmente", "certamente", "claramente", "evidentemente",
    "obviamente", "naturalmente", "efetivamente", "realmente", "atualmente",
    "normalmente", "geralmente", "usualmente", "frequentemente", "raramente",
    "eventualmente", "oportunamente", "tempestivamente", "intempestivamente",
    "situação", "situacao", "condição", "condicao", "relação", "relacao",
    "referência", "referencia", "consequência", "consequencia",
    "decorrência", "existência", "existencia", "ausência", "ausencia",
    "presença", "presenca", "ocorrência", "ocorrencia", "providência",
    "providencia", "procedência", "procedencia", "improcedência",
    "improcedencia", "competência", "competencia", "urgência", "urgencia",
    "relevância", "relevancia", "importância", "importancia", "necessidade",
    "possibilidade", "impossibilidade", "capacidade", "incapacidade",
    "responsabilidade", "legitimidade", "legalidade", "ilegalidade",
    "validade", "nulidade", "eficácia", "eficacia", "conforme", "inclusive",
    "exclusive", "mediante", "perante", "consoante", "outrossim", "destarte",
    "dessarte", "ademais", "demais", "aliás", "alias", "todavia",
    "conquanto", "porquanto", "mormente", "sobretudo", "precipuamente",
    "consubstanciar", "consubstanciado", "consubstanciada", "requerer",
    "pleitear", "postular", "pugnar", "vindicar", "impugnar", "recorrer",
    "apelar", "embargar", "agravar", "interpor", "indeferir", "deferir",
    "julgar", "decidir", "determinar", "ordenar", "intimação", "citação",
    "notificação", "publicação", "distribuição", "procedimento",
    "procedimentos", "expediente", "diligência", "protocolo", "autuação",
    "juntada", "certidão", "traslado", "cópia", "original", "via", "autos",
    "folha", "folhas", "página", "pagina", "volume", "volumes", "anexo",
    "anexos", "apenso", "apensos", "art", "arts", "inc", "par", "caput",
    "alínea", "sudene", "adene", "sudam", "suframa", "laudo", "laudos",
    "constitutivo", "constitutiva", "constitutivos", "imposto", "renda",
    "irpj", "csll", "pis", "cofins", "icms", "iss", "lucro", "receita",
    "despesa", "custo", "custos", "contribuinte", "fisco", "autuação",
    "auto", "infração", "infracao", "penalidade", "sanção", "sancao",
    "débito", "debito", "lançamento", "lancamento", "compensação",
    "compensacao", "restituição", "restituicao", "creditamento", "certidão",
    "cda", "dívida", "divida", "ativa", "execução", "execucao", "embargos",
    "impugnação", "impugnacao", "exceção", "excecao", "preliminar", "mérito",
    "merito", "procedente", "improcedente", "provimento", "improvimento",
    "desprovimento", "provido", "desprovido", "celulose", "papel", "suzano",
    "fibria", "produção", "producao", "industrial", "indústria", "industria",
    "fábrica", "fabrica", "exportação", "exportacao", "importação",
    "importacao", "comércio", "comercio" ]

/-- `PT_COMMON_WORDS.has(w)` (the `Set` holds each word once; membership
in the list is the same test). -/
def ptCommonHas (w : Str) : Bool := PT_COMMON_WORDS.any (fun x => x.data = w)

/-- Embeds `QualityProfiler.detectWordLevelGarbage`
(quality-profiler.js lines 344-438), returning the integer number of
signal points; the JS function returns `signals / totalSignals` where
`totalSignals` always accumulates to 13 (see `detectWordLevelGarbage`
below for the rational score). -/
def detectWordLevelGarbageSignals (text : Str) : Nat :=
  -- `if (!text || text.trim().length < 30) return 0;`
  if (jsTrim text).length < 30 then 0
  else
    let cleanText := stripPJeFooter text
    let words := splitWs cleanText
    -- `if (words.length < 5) return 0;`
    if words.length < 5 then 0
    else
      let n := words.length
      -- Signal 1: short fragments; `shortRatio > 0.45` / `> 0.30`
      let shortCount := (words.filter (fun w => (w.filter alnumLatin).length ≤ 2)).length
      let s1 := if 100 * shortCount > 45 * n then 2
                else if 100 * shortCount > 30 * n then 1 else 0
      -- Signal 2: punctuation-as-word: `alpha.length < w.length * 0.4 && w.length > 1`,
      -- thresholds `punctRatio > 0.15` / `> 0.08`
      let punctCount := (words.filter (fun w =>
        10 * (w.filter alnumLatin).length < 4 * w.length && w.length > 1)).length
      let s2 := if 100 * punctCount > 15 * n then 2
                else if 100 * punctCount > 8 * n then 1 else 0
      -- Signal 3: garbage operators; `tildeRatio > 0.02` of `cleanText.length`
      let tildeCount := (cleanText.filter tildeGarbageChar).length
      let s3 := if 100 * tildeCount > 2 * cleanText.length then 1 else 0
      -- Signal 4: common Portuguese stoplist; `commonRatio < 0.05` / `< 0.10`
      let lowerWords := words.map (fun w => (jsToLowerStr w).filter ptLowerAlpha)
      let commonCount := (lowerWords.filter (fun w =>
        SIGNAL4_COMMON_WORDS.any (fun x => x.data = w))).length
      let s4 := if 100 * commonCount < 5 * n then 2
                else if 10 * commonCount < n then 1 else 0
      -- Signal 5: broken word patterns over `w.replace(/[^a-zA-Z]/g, '')`,
      -- denominator `Math.max(words.filter(w => w.length >= 3).length, 1)`
      let brokenCount := (words.filter (fun w =>
        let clean := w.filter asciiAlpha
        clean.length ≥ 3 && (hasRun4 ptConsonant clean || hasLowerUpperLower clean))).length
      let den5 := max (words.filter (fun w => w.length ≥ 3)).length 1
      let s5 := if 100 * brokenCount > 15 * den5 then 2
                else if 100 * brokenCount > 8 * den5 then 1 else 0
      -- Signal 6: encoding corruption over `w.replace(/[^a-zA-ZÀ-ɏ0-9~\-=]/g, '')`
      let encCount := (words.filter (fun w =>
        let clean := w.filter (fun c => alnumLatin c || c = '~' || c = '-' || c = '=')
        clean.length ≥ 3 &&
          (hasTriple encLetterDigit (fun c => c = '~' || c = '-' || c = '=') encLetterDigit clean ||
           hasTriple asciiLetterCI isAsciiDigit asciiLetterCI clean ||
           hasTriple isAsciiDigit asciiLetterCI isAsciiDigit clean ||
           hasLowerUpperLower clean))).length
      let s6 := if 10 * encCount > n then 2
                else if 100 * encCount > 5 * n then 1 else 0
      -- Signal 7: dictionary miss rate on words of length ≥ 4 (when ≥ 10 exist);
      -- `missRate > 0.70` / `> 0.55`
      let longWords := lowerWords.filter (fun w => (w.filter ptLowerAlpha).length ≥ 4)
      let s7 := if longWords.length ≥ 10 then
                  let missCount := (longWords.filter (fun w => !ptCommonHas w)).length
                  if 10 * missCount > 7 * longWords.length then 2
                  else if 100 * missCount > 55 * longWords.length then 1 else 0
                else 0
      s1 + s2 + s3 + s4 + s5 + s6 + s7

/-- The word-level garbage score `signals / totalSignals` of
`detectWordLevelGarbage` (`totalSignals` is always 13). -/
def detectWordLevelGarbage (text : Str) : ℚ :=
  (detectWordLevelGarbageSignals text : ℚ) / 13

/-! ### Quality profiler — readability, noise, per-page profiling
(quality-profiler.js lines 260-310 and 480-517) -/

/-- The kept class of `asciiRatio`:
`text.replace(/[^\x20-\x7EÀ-ɏ]/g, '')`. -/
def printableLatin (c : Char) : Bool :=
  (0x20 ≤ c.toNat && c.toNat ≤ 0x7E) || (0xC0 ≤ c.toNat && c.toNat ≤ 0x24F)

/-- Embeds `QualityProfiler.calculateReadability`
(quality-profiler.js lines 260-293).  All four components are integers:
`score += Math.round(asciiRatio * 30)` is `⌊(60·ascii + chars)/(2·chars)⌋`
(round half up of `30·ascii/chars`), the other additions are integer
literals chosen by exact rational threshold comparisons, each annotated
with its source expression. -/
def calculateReadability (text : Str) (pageCount : Nat) : Nat :=
  -- `if (!text || text.trim().length === 0) return 0;`
  if (jsTrim text).length = 0 then 0
  else
    let charCount := text.length
    let wordCount := (splitWs text).length
    let pc := max pageCount 1
    let wc := max wordCount 1
    -- `charsPerPage > 1500` is `charCount / pc > 1500`, i.e. `charCount > 1500 * pc`
    let densityScore := if charCount > 1500 * pc then 30
                        else if charCount > 800 * pc then 20
                        else if charCount > 300 * pc then 10
                        else 5
    -- `avgWordLength = charCount / wc`; `avgWordLength >= 3 && avgWordLength <= 8`
    let wordScore := if 3 * wc ≤ charCount && charCount ≤ 8 * wc then 25
                     else if 2 * wc ≤ charCount && charCount ≤ 12 * wc then 15
                     else 5
    -- `score += Math.round(asciiRatio * 30)` with `asciiRatio = ascii / charCount`
    let asciiCount := (text.filter printableLatin).length
    let asciiScore := (60 * asciiCount + charCount) / (2 * charCount)
    -- `lines = text.split('\n').filter(l => l.trim().length > 0)`;
    -- `avgLineLength = charCount / max(lines,1)`; `> 30 && < 120`, `> 10`
    let lineCount := max ((splitLines text).filter (fun l => (jsTrim l).length > 0)).length 1
    let lineScore := if charCount > 30 * lineCount && charCount < 120 * lineCount then 15
                     else if charCount > 10 * lineCount then 8
                     else 0
    min 100 (densityScore + wordScore + asciiScore + lineScore)

/-- The complement of `garbagePattern`
`[^\w\sÀ-ɏ.,;:!?()[\]{}"'\-\/\\@#$%&*+=<>|~\x60^]` of
`detectNoiseLevel`: `true` for the characters counted as garbage. -/
def noiseGarbageChar (c : Char) : Bool :=
  !(jsWordChar c || isJsWs c || (0xC0 ≤ c.toNat && c.toNat ≤ 0x24F) ||
    c = '.' || c = ',' || c = ';' || c = ':' || c = '!' || c = '?' ||
    c = '(' || c = ')' || c = '[' || c = ']' || c = Char.ofNat 0x7B || c = Char.ofNat 0x7D ||
    c = '"' || c = '\'' || c = '-' || c = '/' || c = '\\' || c = '@' || c = '#' ||
    c = '$' || c = '%' || c = '&' || c = '*' || c = '+' || c = '=' ||
    c = '<' || c = '>' || c = '|' || c = '~' || c = Char.ofNat 0x60 || c = '^')

/-- Embeds `QualityProfiler.detectNoiseLevel`
(quality-profiler.js lines 298-310).  The thresholds
`charGarbageRatio >= 0.08` / `>= 0.02` and `wordGarbageScore >= 0.5` /
`>= 0.3` (the score is `signals/13`) are the exact comparisons
`100·g ≥ 8·len`, `100·g ≥ 2·len`, `2·signals ≥ 13`, `10·signals ≥ 39`. -/
def detectNoiseLevel (text : Str) : Noise :=
  -- `if (!text) return 'high';`
  if text.isEmpty then Noise.high
  else
    let len := max text.length 1
    let garbage := (text.filter noiseGarbageChar).length
    let signals := detectWordLevelGarbageSignals text
    if 100 * garbage ≥ 8 * len || 2 * signals ≥ 13 then Noise.high
    else if 100 * garbage ≥ 2 * len || 10 * signals ≥ 39 then Noise.medium
    else Noise.low

/-- One page of extracted text as fed to `profilePages`
(`page.text`, `page.page_number`, `page.empty`). -/
structure PageIn where
  page_number : Nat
  text : Str
  empty : Bool
deriving Repr

/-- The per-page map of `QualityProfiler.profilePages`
(quality-profiler.js lines 481-501), before document-level propagation.
`is_degraded` embeds
`readability < 60 || noise === 'high' || noise === 'medium' || wordGarbage >= 0.15 || charCount < 50`;
`wordGarbage >= 0.15` is `signals/13 ≥ 3/20`, i.e. `20·signals ≥ 39`. -/
def basePageProfile (page : PageIn) : PageProfile :=
  let text := page.text
  let readability := calculateReadability text 1
  let noise := detectNoiseLevel text
  let wordGarbageSignals := detectWordLevelGarbageSignals text
  let charCount := text.length
  { page_number := page.page_number
    readability_score := readability
    noise_level := noise
    word_garbage_signals := wordGarbageSignals
    quality_tier := getQualityTier readability
    char_count := charCount
    is_degraded := decide (readability < 60) || noise == Noise.high || noise == Noise.medium ||
      decide (20 * wordGarbageSignals ≥ 39) || decide (charCount < 50)
    empty := page.empty
    propagated := none }

/-- The document-level propagation step of `QualityProfiler.profilePages`
(quality-profiler.js lines 503-516):

```js
const nonEmpty = profiles.filter(p => !p.empty);
const degradedCount = nonEmpty.filter(p => p.is_degraded).length;
if (nonEmpty.length > 0 && degradedCount > nonEmpty.length * 0.5) {
  for (const p of profiles) {
    if (!p.empty) {
      p.is_degraded = true;
      if (!p.propagated) p.propagated = degradedCount < nonEmpty.length;
    }
  }
}
```

`degradedCount > nonEmpty.length * 0.5` is the exact comparison
`2 * degradedCount > nonEmpty.length`. -/
def propagateDegraded (profiles : List PageProfile) : List PageProfile :=
  let nonEmpty := profiles.filter (fun p => !p.empty)
  let degradedCount := (nonEmpty.filter (·.is_degraded)).length
  if nonEmpty.length > 0 && 2 * degradedCount > nonEmpty.length then
    profiles.map (fun p =>
      if p.empty then p
      else
        { p with
          is_degraded := true
          propagated :=
            match p.propagated with
            | some true => some true
            | _ => some (decide (degradedCount < nonEmpty.length)) })
  else profiles

/-- Embeds `QualityProfiler.profilePages`
(quality-profiler.js lines 480-517). -/
def profilePages (pages : List PageIn) : List PageProfile :=
  propagateDegraded (pages.map basePageProfile)

/-! ### C10 — the OCR gates that consume the garbage score
(ocr-router.js lines 333-364 and 488-546) -/

/-- One OCR page result as consumed by `_ocrSinglePageWithRetry`. -/
structure OcrPageResult where
  page_number : Nat
  text : Str
  empty : Bool
deriving Repr

/-- Embeds the gate of `TextExtractor._ocrSinglePageWithRetry`
(ocr-router.js lines 333-343): rotation retries run iff the early guard
`result.empty || !result.text || result.text.length < 30` fails and
`garbageScore ≥ 0.4` (the score is `signals/13`; `≥ 0.4` is
`5·signals ≥ 26`). -/
def rotationRetryTriggered (result : OcrPageResult) : Bool :=
  if result.empty || result.text.isEmpty || result.text.length < 30 then false
  else decide (5 * detectWordLevelGarbageSignals result.text ≥ 26)

/-- Embeds the hybrid-merge degradation clamp of
`TextExtractor.extractHybrid` (ocr-router.js lines 523 and 535): the
chosen page's confidence is clamped to 0.4 iff its garbage score exceeds
0.3 (`garbage > 0.3` is `10·signals > 39`). -/
def hybridGarbageClamped (text : Str) : Bool :=
  decide (10 * detectWordLevelGarbageSignals text > 39)

/-! ### PJe block stripping (`_stripPJeBlocks`)

`DocumentClassifier._stripPJeBlocks` (quality-profiler.js lines 1181-1194)
replicates `PageSegmenter._stripPJeBlocks` (same file, lines 1486-1506);
one embedding serves both. -/

/-- Start of a full PJe block: `Num\.\s*\d+\s*-\s*P[áa]g\.\s*\d+`. -/
def pjeBlockStart : RE :=
  reCat [ciLit "num.", wsStar, reDigitPlus, wsStar, ciLit "-", wsStar,
         ciLit "p", clsCI ['á', 'a'], ciLit "g.", wsStar, reDigitPlus]

/-- End marker of a full PJe block (`Este documento foi gerado`, then
`[^\n]*` to the end of that line). -/
def pjeBlockEndLit : Str := "este documento foi gerado".data

def pjeBlockEnd : RE := ciLit "este documento foi gerado"

/-- The global replace
`/Num\.\s*\d+\s*-\s*P[áa]g\.\s*\d+[\s\S]*?Este documento foi gerado[^\n]*/gi → '\n'`:
from the first block-start match, the lazy middle runs to the first
following end marker, and `[^\n]*` extends the match to the end of that
line; the whole span is replaced by a newline and scanning continues.
When a block start has no following end marker the pattern cannot match
there or anywhere later, so the text is returned unchanged. -/
def stripPJeBlockGo : Nat → Str → Str
  | 0, s => s
  | fuel + 1, s =>
    match firstMatchIndex pjeBlockStart s with
    | none => s
    | some i =>
      let pre := s.take i
      let rest := s.drop i
      match firstMatchIndex pjeBlockEnd rest with
      | none => s
      | some j =>
        let after := (rest.drop (j + pjeBlockEndLit.length)).dropWhile (fun c => c ≠ '\n')
        pre ++ '\n' :: stripPJeBlockGo fuel after

/-- Longest anchored match of `r` at the head of `s`: the least suffix
among the matcher's results (JS greedy semantics for a `replace` whose
pattern ends in a greedy star), or `none` when `r` does not match at the
head. -/
def anchoredMaxMunch (r : RE) (s : Str) : Option Str :=
  (mreF (s.length + 1) r none s).foldl
    (fun best st =>
      match best with
      | none => some st.2
      | some b => some (if st.2.length < b.length then st.2 else b))
    none

/-- One line-anchored replace `^pat → ''` (`gim` flags): on each line, the
matched prefix is removed and the remaining suffix kept. -/
def lineStripPat (r : RE) (line : Str) : Str :=
  match anchoredMaxMunch r line with
  | some suffix => suffix
  | none => line

def joinNl : List Str → Str
  | [] => []
  | [l] => l
  | l :: rest => l ++ '\n' :: joinNl rest

def mapLines (f : Str → Str) (s : Str) : Str := joinNl ((splitLines s).map f)

/-- `[^\n]*`. -/
def restOfLine : RE := RE.star reDot

/-- `^Assinado eletronicamente[^\n]*` (`gim`). -/
def assinadoLineRe : RE := reCat [ciLit "assinado eletronicamente", restOfLine]

/-- `^https?:\/\/pje\d?g?\.[\S]*` (`gim`). -/
def httpsLineRe : RE :=
  reCat [ciLit "http", RE.opt (ciLit "s"), ciLit "://pje", RE.opt reDigit,
         RE.opt (ciLit "g"), ciLit ".", RE.star (RE.cls (fun c => !isJsWs c))]

/-- `^N[úu]mero do documento:[^\n]*` (`gim`). -/
def numeroLineRe : RE := reCat [ciLit "n", clsCI ['ú', 'u'], ciLit "mero do documento:", restOfLine]

/-- `^Este documento foi gerado[^\n]*` (`gim`). -/
def esteDocLineRe : RE := reCat [ciLit "este documento foi gerado", restOfLine]

/-- `^Num\.\s*\d+\s*-\s*P[áa]g\.\s*\d+[^\n]*` (`gim`). -/
def numPagLineRe : RE := reCat [pjeBlockStart, restOfLine]

/-- Collapse `\n{3,}` to `\n\n` (single pass, counting pending newlines). -/
def collapseNl3Aux : Str → Nat → Str
  | [], pending => List.replicate (min pending 2) '\n'
  | c :: rest, pending =>
    if c = '\n' then collapseNl3Aux rest (pending + 1)
    else List.replicate (min pending 2) '\n' ++ c :: collapseNl3Aux rest 0

def collapseNl3 (s : Str) : Str := collapseNl3Aux s 0

/-- Embeds `_stripPJeBlocks` (quality-profiler.js lines 1181-1194 and
1486-1506): remove full PJe blocks, then the five standalone line
patterns, collapse blank-line runs, and trim. -/
def stripPJeBlocks (text : Str) : Str :=
  if text.isEmpty then []
  else
    let c1 := stripPJeBlockGo (text.length + 1) text
    let c2 := mapLines (lineStripPat assinadoLineRe) c1
    let c3 := mapLines (lineStripPat httpsLineRe) c2
    let c4 := mapLines (lineStripPat numeroLineRe) c3
    let c5 := mapLines (lineStripPat esteDocLineRe) c4
    let c6 := mapLines (lineStripPat numPagLineRe) c5
    jsTrim (collapseNl3 c6)

/-! ### C6 — the L1 classifier's per-rule scoring
(quality-profiler.js lines 1206-1382)

Each regex of the rule table is embedded as a `JsPattern`, carrying the JS
`source` string verbatim (the disambiguation step compares sources) and
the regex itself.  `classify` processes every rule independently — the
scores list is built per rule, disambiguation and the specificity bonus
adjust each score in place, and only the final sort compares rules — so
the per-rule slice below is faithful to what `classify` computes for one
rule. -/

structure JsPattern where
  source : String
  re : RE

/-- `pattern.test(s)`. -/
def patTest (p : JsPattern) (s : Str) : Bool := reTest p.re s

structure ClassRule where
  type : String
  patterns : List JsPattern
  weight : ℚ

structure DisambRule where
  structural : List JsPattern
  entityOnly : List JsPattern

structure RuleScore where
  type : String
  confidence : ℚ
  indicators : List String
  disambiguation : Option String := none

/-- `Math.round` for the non-negative values used here: `⌊x + 1/2⌋`. -/
def jsRound (x : ℚ) : ℤ := ⌊x + 1 / 2⌋

/-- `Math.round(x * 100) / 100`. -/
def round2 (x : ℚ) : ℚ := (jsRound (x * 100) : ℚ) / 100

/-- The non-trivial lines of the cleaned text:
`cleanedText.split('\n').map(l => l.trim()).filter(l => l.length > 3)`. -/
def nonTrivialLines (cleanedText : Str) : List Str :=
  ((splitLines cleanedText).map jsTrim).filter (fun l => l.length > 3)

/-- `l.slice(-n)`. -/
def lastN {α : Type} (n : Nat) (l : List α) : List α := l.drop (l.length - n)

/-- `heading = nonEmptyLines.slice(0, 5).join('\n')`. -/
def classifyHeading (cleanedText : Str) : Str := joinNl ((nonTrivialLines cleanedText).take 5)

/-- `tail = nonEmptyLines.slice(-3).join('\n')`. -/
def classifyTail (cleanedText : Str) : Str := joinNl (lastN 3 (nonTrivialLines cleanedText))

/-- The body/heading/tail scoring of one rule
(quality-profiler.js lines 1221-1252); `none` when no pattern matched
anywhere (the rule contributes no score). -/
def ruleBaseScore (rule : ClassRule) (cleanedText heading tail : Str) : Option RuleScore :=
  let bodyMatches := rule.patterns.filter (fun p => patTest p cleanedText)
  let headingMatches := if heading.isEmpty then [] else rule.patterns.filter (fun p => patTest p heading)
  let tailMatches := if tail.isEmpty then [] else rule.patterns.filter (fun p => patTest p tail)
  let allMatchSources := ((bodyMatches ++ headingMatches ++ tailMatches).map (·.source)).eraseDups
  if allMatchSources.isEmpty then none
  else
    -- `const bodyRatio = bodyMatches.length / rule.patterns.length;`
    let bodyFrac : ℚ := (bodyMatches.length : ℚ) / (rule.patterns.length : ℚ)
    -- `const headingBoost = Math.min(0.3, headingMatches.length * 0.15);`
    let headingBoost : ℚ := min (3 / 10) ((headingMatches.length : ℚ) * (15 / 100))
    -- `const tailBoost = Math.min(0.2, tailMatches.length * 0.1);`
    let tailBoost : ℚ := min (2 / 10) ((tailMatches.length : ℚ) * (1 / 10))
    let rawConfidence := bodyFrac * rule.weight + headingBoost + tailBoost
    some { type := rule.type
           confidence := round2 (min 1 rawConfidence)
           indicators := allMatchSources }

/-- The disambiguation adjustment of one score
(quality-profiler.js lines 1309-1333). -/
def applyDisambiguation (rule : DisambRule) (cleanedText heading : Str) (score : RuleScore) :
    RuleScore :=
  let hasStructuralInHeading := !heading.isEmpty && rule.structural.any (fun p => patTest p heading)
  if hasStructuralInHeading then score
  else
    let hasStructuralInBody := rule.structural.any (fun p => patTest p cleanedText)
    -- `matchedIndicators.every(m => rule.entityOnly.some(e => e.source === m.source || e.test(m.source)))`
    let allMatchesAreEntityOnly := rule.entityOnly.length > 0 &&
      score.indicators.all (fun src =>
        rule.entityOnly.any (fun e => e.source = src || patTest e src.data))
    if allMatchesAreEntityOnly && !hasStructuralInBody then
      { score with confidence := round2 (score.confidence * (3 / 10))
                   disambiguation := some "entity-mention-only" }
    else if hasStructuralInBody then
      { score with confidence := round2 (score.confidence * (7 / 10))
                   disambiguation := some "structural-not-in-heading" }
    else score

/-- The fixed specificity list (quality-profiler.js lines 1337-1348). -/
def specificityOrder : List String :=
  [ "inicial-eef", "inicial-execfiscal", "inicial-ms",
    "acordao-carf", "acordao-csrf", "acordao-trf",
    "sentenca-edcl",
    "recurso-carf",
    "impugnacao-admin", "defesa-admin", "decisao-admin-1inst",
    "parecer-pgfn", "parecer-agu",
    "lixo-procuracao", "lixo-substabelecimento", "lixo-societario",
    "lixo-fianca", "lixo-capa", "lixo-certidao-publicacao",
    "lixo-ato-ordinatorio", "lixo-termo-abertura",
    "certidao-publicacao" ]

/-- The specificity bonus (quality-profiler.js lines 1349-1354):
`confidence = Math.round(Math.min(1, confidence + 0.05) * 100) / 100` for
types on the list. -/
def applySpecificity (score : RuleScore) : RuleScore :=
  if specificityOrder.contains score.type then
    { score with confidence := round2 (min 1 (score.confidence + 5 / 100)) }
  else score

/-- The slice of `DocumentClassifier.classify`
(quality-profiler.js lines 1206-1354) that produces one rule's final
score entry: the length guard, PJe stripping, heading/tail extraction,
base scoring, the rule's disambiguation entry (when it has one), and the
specificity bonus, in source order. -/
def classifyRuleScore (rule : ClassRule) (disamb : Option DisambRule) (text : Str) :
    Option RuleScore :=
  if (jsTrim text).length < 50 then none
  else
    let cleanedText := stripPJeBlocks text
    let heading := classifyHeading cleanedText
    let tail := classifyTail cleanedText
    (ruleBaseScore rule cleanedText heading tail).map (fun s =>
      applySpecificity
        (match disamb with
         | some d => applyDisambiguation d cleanedText heading s
         | none => s))

/-- `/carf/i`. -/
def patCarf : JsPattern := ⟨"carf", ciLit "carf"⟩

/-- `/conselho\s+administrativo\s+de\s+recursos\s+fiscais/i`. -/
def patConselhoAdmin : JsPattern :=
  ⟨"conselho\\s+administrativo\\s+de\\s+recursos\\s+fiscais",
    reCat [ciLit "conselho", wsPlus, ciLit "administrativo", wsPlus, ciLit "de", wsPlus,
           ciLit "recursos", wsPlus, ciLit "fiscais"]⟩

/-- `/recurso\s+volunt[aá]rio/i`. -/
def patRecursoVoluntario : JsPattern :=
  ⟨"recurso\\s+volunt[aá]rio",
    reCat [ciLit "recurso", wsPlus, ciLit "volunt", clsCI ['a', 'á'], ciLit "rio"]⟩

/-- `/recorrente/i`. -/
def patRecorrente : JsPattern := ⟨"recorrente", ciLit "recorrente"⟩

/-- The `recurso-carf` rule (quality-profiler.js lines 1001-1006). -/
def recursoCarfRule : ClassRule :=
  ⟨"recurso-carf", [patCarf, patConselhoAdmin, patRecursoVoluntario, patRecorrente], 85 / 100⟩

/-- The `recurso-carf` disambiguation entry
(quality-profiler.js lines 1283-1286). -/
def recursoCarfDisamb : DisambRule :=
  ⟨[patRecursoVoluntario, patConselhoAdmin], [patCarf]⟩

/-! ### C7 — the page segmenter (page-segmenter.js) -/

/-- One boundary marker (`{ rule, weight, description, page }`;
the human-readable description carries no logic and is omitted). -/
structure Marker where
  rule : String
  weight : ℚ
  page : Nat

structure BoundaryRule where
  name : String
  pattern : RE
  weight : ℚ

/-- A single (case-sensitive) literal character. -/
def litc (c : Char) : RE := RE.cls (fun x => x == c)

/-- The ten boundary rules of `PageSegmenter._buildBoundaryRules`
(page-segmenter section of quality-profiler.js, lines 1414-1478), each
regex transcribed exactly. -/
def boundaryRules : List BoundaryRule :=
  [ -- `/poder\s+judici[aá]rio|tribunal\s+de\s+justi[cç]a|justi[cç]a\s+(federal|estadual|do\s+trabalho)/i`
    ⟨"court-header",
      RE.alt (reCat [ciLit "poder", wsPlus, ciLit "judici", clsCI ['a', 'á'], ciLit "rio"])
        (RE.alt (reCat [ciLit "tribunal", wsPlus, ciLit "de", wsPlus, ciLit "justi",
                        clsCI ['c', 'ç'], ciLit "a"])
          (reCat [ciLit "justi", clsCI ['c', 'ç'], ciLit "a", wsPlus,
                  RE.alt (ciLit "federal")
                    (RE.alt (ciLit "estadual") (reCat [ciLit "do", wsPlus, ciLit "trabalho"]))])),
      9 / 10⟩,
    -- `/(?:excelent[ií]ssim[oa]|exm[oa]\.?)\s+s(?:enhor[a]?|r\.?)\s+(?:d(?:outor[a]?|r\.?)\s+)?(?:juiz|ju[ií]z[a]?|desembargador)/i`
    ⟨"petition-start",
      reCat [RE.alt (reCat [ciLit "excelent", clsCI ['i', 'í'], ciLit "ssim", clsCI ['o', 'a']])
               (reCat [ciLit "exm", clsCI ['o', 'a'], RE.opt (ciLit ".")]),
             wsPlus,
             ciLit "s",
             RE.alt (reCat [ciLit "enhor", RE.opt (ciLit "a")])
               (reCat [ciLit "r", RE.opt (ciLit ".")]),
             wsPlus,
             RE.opt (reCat [ciLit "d",
                            RE.alt (reCat [ciLit "outor", RE.opt (ciLit "a")])
                              (reCat [ciLit "r", RE.opt (ciLit ".")]),
                            wsPlus]),
             RE.alt (ciLit "juiz")
               (RE.alt (reCat [ciLit "ju", clsCI ['i', 'í'], ciLit "z", RE.opt (ciLit "a")])
                 (ciLit "desembargador"))],
      85 / 100⟩,
    -- `/\bsenten[cç]a\b/i`
    ⟨"sentence-start", reCat [RE.wb, ciLit "senten", clsCI ['c', 'ç'], ciLit "a", RE.wb], 9 / 10⟩,
    -- `/\bac[oó]rd[aã][om]\b/i`
    ⟨"acordao-start",
      reCat [RE.wb, ciLit "ac", clsCI ['o', 'ó'], ciLit "rd", clsCI ['a', 'ã'],
             clsCI ['o', 'm'], RE.wb],
      9 / 10⟩,
    -- `/\bcertid[aã]o\b.*\bcertifico/i`
    ⟨"certidao-start",
      reCat [RE.wb, ciLit "certid", clsCI ['a', 'ã'], ciLit "o", RE.wb, RE.star reDot,
             RE.wb, ciLit "certifico"],
      8 / 10⟩,
    -- `/\b(anexo\s+[IVX\d]|documento\s+n)/i`
    ⟨"attachment-label",
      reCat [RE.wb,
             RE.alt (reCat [ciLit "anexo", wsPlus,
                            RE.cls (fun c =>
                              let l := jsToLower c
                              l = 'i' || l = 'v' || l = 'x' || isAsciiDigit c)])
               (reCat [ciLit "documento", wsPlus, ciLit "n"])],
      75 / 100⟩,
    -- `/\d{7}-\d{2}\.\d{4}\.\d\.\d{2}\.\d{4}/`
    ⟨"process-number",
      reCat [reDigit, reDigit, reDigit, reDigit, reDigit, reDigit, reDigit, litc '-',
             reDigit, reDigit, litc '.', reDigit, reDigit, reDigit, reDigit, litc '.',
             reDigit, litc '.', reDigit, reDigit, litc '.', reDigit, reDigit, reDigit, reDigit],
      6 / 10⟩,
    -- `/\bdespacho\b/i`
    ⟨"despacho", reCat [RE.wb, ciLit "despacho", RE.wb], 7 / 10⟩,
    -- `/\bdecis[aã]o\s*(interlocut[oó]ria)?/i`
    ⟨"decisao",
      reCat [RE.wb, ciLit "decis", clsCI ['a', 'ã'], ciLit "o", wsStar,
             RE.opt (reCat [ciLit "interlocut", clsCI ['o', 'ó'], ciLit "ria"])],
      75 / 100⟩,
    -- `/\bof[ií]cio\s+n/i`
    ⟨"oficio", reCat [RE.wb, ciLit "of", clsCI ['i', 'í'], ciLit "cio", wsPlus, ciLit "n"], 7 / 10⟩ ]

/-- `PageSegmenter._extractHeading` (lines 1516-1521): the first
`maxLines` lines of length > 3 after trimming, joined by newlines. -/
def extractHeading (text : Str) (maxLines : Nat) : Str :=
  joinNl ((((splitLines text).map jsTrim).filter (fun l => l.length > 3)).take maxLines)

/-- Embeds `PageSegmenter.detectBoundaries` (lines 1560-1592): boundary
rules are tested against the 3-line heading of the PJe-stripped text; a
`blank-page` marker (weight 0.7) is appended when the whole cleaned text
is shorter than 30 characters. -/
def detectBoundaries (pageText : Str) (pageNumber : Nat) : List Marker :=
  let cleanedText := stripPJeBlocks pageText
  let heading := extractHeading cleanedText 3
  ((boundaryRules.filter (fun r => reTest r.pattern heading)).map
    (fun r => ⟨r.name, r.weight, pageNumber⟩)) ++
    (if cleanedText.length < 30 then
      [⟨"blank-page", 7 / 10, pageNumber⟩]
    else [])

/-- Decimal value of a digit string (JS `parseInt(match[1])`). -/
def decValue (ds : Str) : Nat := ds.foldl (fun a c => 10 * a + (c.toNat - 48)) 0

/-- The per-line test of `_extractParagraphNum`:
`^(\d{1,3})\s*[.)\-]\s` (a match requires 1-3 leading digits — four or
more leading digits cannot match, since after at most 3 of them the next
character is a digit, outside `[.)\-]` even via the empty `\s*`). -/
def paraNumOfLine (line : Str) : Option Nat :=
  let ds := line.takeWhile isAsciiDigit
  if ds.length = 0 || ds.length > 3 then none
  else
    match (line.drop ds.length).dropWhile isJsWs with
    | c :: c2 :: _ =>
      if (c = '.' || c = ')' || c = '-') && isJsWs c2 then some (decValue ds) else none
    | _ => none

/-- Embeds `PageSegmenter._extractParagraphNum` (lines 1534-1552): search
the last 20 (from the end) or the first 5 non-trivial lines. -/
def extractParagraphNum (text : Str) (fromEnd : Bool) : Option Nat :=
  let lines := ((splitLines text).map jsTrim).filter (fun l => l.length > 3)
  if fromEnd then (lastN 20 lines).reverse.findSome? paraNumOfLine
  else (lines.take 5).findSome? paraNumOfLine

/-- A segment as built by `PageSegmenter.segment`. -/
structure Segment where
  segment_id : String
  type : String
  doc_type : String
  classification_source : String
  page_start : Nat
  page_end : Nat
  confidence : ℚ
  boundary_markers : List Marker

/-- The document classification bridged into the segmenter
(`extractedData.classification`). -/
structure DocClassification where
  primary_type : String
  confidence : ℚ
  indicators : List String

/-- The `ruleToType` table of `_inferSegmentType` (lines 1683-1694),
as `name ↦ (type, doc_type)`. -/
def ruleToType : List (String × String × String) :=
  [ ("court-header", "piece", "unknown"),
    ("petition-start", "piece", "peticao"),
    ("sentence-start", "piece", "sentenca"),
    ("acordao-start", "piece", "acordao"),
    ("certidao-start", "piece", "certidao"),
    ("attachment-label", "attachment", "attachment"),
    ("despacho", "piece", "despacho"),
    ("decisao", "piece", "decisao-interlocutoria"),
    ("oficio", "piece", "oficio"),
    ("blank-page", "separator", "separator") ]

/-- The highest-weight marker (`[...markers].sort((a,b) => b.weight - a.weight)[0]`;
the sort is stable, so ties keep the earlier marker). -/
def topMarker (markers : List Marker) : Option Marker :=
  markers.foldl
    (fun best m =>
      match best with
      | none => some m
      | some b => if m.weight > b.weight then some m else some b)
    none

/-- Embeds `PageSegmenter._inferSegmentType` (lines 1682-1713), returning
`(type, doc_type, classification_source)`. -/
def inferSegmentType (markers : List Marker) (classification : Option DocClassification) :
    String × String × String :=
  let fallback :=
    match classification with
    | some c => if c.confidence ≥ 2 / 10 then some c else none
    | none => none
  match topMarker markers with
  | some m =>
    match (ruleToType.find? (fun e => e.1 = m.rule)) with
    | some (_, ty, dt) =>
      if dt = "unknown" then
        match fallback with
        | some c => (ty, c.primary_type, "profiler-fallback")
        | none => (ty, dt, "boundary-rules")
      else (ty, dt, "boundary-rules")
    | none =>
      match fallback with
      | some c => ("piece", c.primary_type, "profiler-fallback")
      | none => ("piece", "unknown", "boundary-rules")
  | none =>
    match fallback with
    | some c => ("piece", c.primary_type, "profiler-fallback")
    | none => ("piece", "unknown", "boundary-rules")

/-- `seg-NNN`. -/
def segIdOf (counter : Nat) : String :=
  "seg-" ++ String.mk (padStart3 (natDecimal counter))

/-- The loop state of `PageSegmenter.segment`. -/
structure SegState where
  segments : List Segment
  currentSegment : Option Segment
  segmentCounter : Nat
  prevPageLastParaNum : Option Nat

/-- One iteration of the `for (const page of pages)` loop of
`PageSegmenter.segment` (lines 1609-1666), in source order: detect
markers, apply paragraph-continuation suppression, update the running
paragraph number, then either open a new segment
(`if (isNewPiece || !currentSegment)`) or extend the current one
(both the blank-page branch and the continue branch set
`currentSegment.page_end = page.page_number`). -/
def segmentStep (classification : Option DocClassification) (st : SegState) (page : PageIn) :
    SegState :=
  let markers := detectBoundaries page.text page.page_number
  -- `let isNewPiece = markers.some(m => m.weight >= 0.7 && m.rule !== 'blank-page');`
  let isNewPiece0 := markers.any (fun m => decide (m.weight ≥ 7 / 10) && m.rule ≠ "blank-page")
  let isNewPiece :=
    if isNewPiece0 && st.currentSegment.isSome && st.prevPageLastParaNum.isSome then
      -- suppression only for non-structural markers (`weight < 0.85`)
      if markers.any (fun m => decide (m.weight ≥ 85 / 100)) then isNewPiece0
      else
        match extractParagraphNum (stripPJeBlocks page.text) false, st.prevPageLastParaNum with
        | some first, some prev => if first = prev + 1 then false else isNewPiece0
        | _, _ => isNewPiece0
    else isNewPiece0
  let newPrevPara :=
    match extractParagraphNum (stripPJeBlocks page.text) true with
    | some n => some n
    | none => st.prevPageLastParaNum
  if isNewPiece || st.currentSegment.isNone then
    let closed :=
      match st.currentSegment with
      | some cs => st.segments ++ [cs]
      | none => st.segments
    let counter := st.segmentCounter + 1
    let (ty, dt, src) := inferSegmentType markers classification
    { segments := closed
      currentSegment := some
        { segment_id := segIdOf counter
          type := ty
          doc_type := dt
          classification_source := src
          page_start := page.page_number
          page_end := page.page_number
          -- `Math.max(...markers.map(m => m.weight), 0.5)`
          confidence := markers.foldl (fun acc m => max acc m.weight) (1 / 2)
          boundary_markers := markers }
      segmentCounter := counter
      prevPageLastParaNum := newPrevPara }
  else
    { st with
      currentSegment := st.currentSegment.map (fun cs => { cs with page_end := page.page_number })
      prevPageLastParaNum := newPrevPara }

/-- Embeds `PageSegmenter.segment` (lines 1597-1677). -/
def segmentPages (classification : Option DocClassification) (pages : List PageIn) :
    List Segment :=
  let final := pages.foldl (segmentStep classification) ⟨[], none, 0, none⟩
  final.segments ++
    (match final.currentSegment with
     | some cs => [cs]
     | none => [])

/-! ### C8 — stage 5.6, the L2 contextual positional reclassification
(the E2E pipeline driver `runPipelineOnPdf`, stage 5.6 block) -/

/-- A segment as seen by stage 5.6 (the fields the block reads or
writes). -/
structure L2Segment where
  type : String
  doc_type : String
  classification_source : String
  classification_confidence : Option ℚ
  classification_indicators : List String := []
  l2_previous_type : Option String := none
  l2_boost : Option ℚ := none
  l2_reasons : List String := []
  cascade_level : Option Nat := none
  page_start : Nat
  page_end : Nat

/-- The result of the L1 classifier as consumed by the L2 secondary
branch (`reClass.secondary_type`, `reClass.secondary_confidence`,
`reClass.indicators`). -/
structure ClassifyOut where
  secondary_type : Option String
  secondary_confidence : ℚ
  indicators : List String

/-- The `TRANSITIONS` table of stage 5.6, transcribed verbatim. -/
def TRANSITIONS : List (String × List String) :=
  [ ("inicial-eef", ["cda", "laudo-constitutivo", "documento-fiscal", "impugnacao", "decisao-interlocutoria", "despacho"]),
    ("inicial-execfiscal", ["cda", "documento-fiscal", "despacho", "decisao-interlocutoria"]),
    ("inicial-ms", ["decisao-interlocutoria", "contestacao", "impugnacao", "despacho"]),
    ("peticao-inicial", ["decisao-interlocutoria", "contestacao", "impugnacao", "despacho", "cda"]),
    ("cda", ["impugnacao", "decisao-interlocutoria", "despacho", "documento-fiscal", "laudo-constitutivo"]),
    ("laudo-constitutivo", ["decisao-interlocutoria", "despacho", "impugnacao", "sentenca", "laudo-constitutivo"]),
    ("documento-fiscal", ["decisao-interlocutoria", "despacho", "impugnacao", "laudo-constitutivo", "documento-fiscal"]),
    ("parecer-tecnico", ["decisao-interlocutoria", "despacho", "sentenca"]),
    ("laudo-pericial", ["sentenca", "decisao-interlocutoria", "despacho"]),
    ("impugnacao", ["decisao-interlocutoria", "sentenca", "laudo-pericial", "despacho"]),
    ("contestacao", ["sentenca", "decisao-interlocutoria", "laudo-pericial", "despacho"]),
    ("sentenca", ["edcl", "apelacao", "sentenca-edcl", "certidao-publicacao"]),
    ("sentenca-edcl", ["apelacao", "edcl", "certidao-publicacao"]),
    ("edcl", ["sentenca-edcl", "sentenca", "acordao", "acordao-trf"]),
    ("apelacao", ["contrarrazoes", "acordao", "acordao-trf", "distribuicao"]),
    ("contrarrazoes", ["acordao", "acordao-trf", "distribuicao", "pauta"]),
    ("agravo", ["decisao-interlocutoria", "despacho"]),
    ("recurso-especial", ["acordao", "contrarrazoes"]),
    ("recurso-extraordinario", ["acordao", "contrarrazoes"]),
    ("distribuicao", ["pauta", "acordao", "acordao-trf"]),
    ("pauta", ["acordao", "acordao-trf"]),
    ("acordao", ["edcl", "recurso-especial", "recurso-extraordinario", "certidao-publicacao"]),
    ("acordao-trf", ["edcl", "recurso-especial", "recurso-extraordinario", "certidao-publicacao"]),
    ("auto-infracao", ["defesa-admin", "impugnacao-admin", "decisao-interlocutoria"]),
    ("defesa-admin", ["decisao-admin-1inst", "decisao-interlocutoria"]),
    ("impugnacao-admin", ["decisao-admin-1inst", "decisao-interlocutoria"]),
    ("decisao-admin-1inst", ["recurso-admin", "recurso-carf"]),
    ("recurso-admin", ["contrarrazoes-admin", "resposta-fazenda", "acordao-carf"]),
    ("recurso-carf", ["contrarrazoes-admin", "resposta-fazenda", "acordao-carf"]),
    ("contrarrazoes-admin", ["acordao-carf"]),
    ("resposta-fazenda", ["acordao-carf"]),
    ("acordao-carf", ["acordao-csrf", "edcl", "recurso-especial"]),
    ("acordao-csrf", ["edcl", "recurso-especial"]),
    ("parecer-pgfn", ["sentenca", "decisao-interlocutoria", "acordao", "despacho"]),
    ("parecer-agu", ["sentenca", "decisao-interlocutoria", "acordao", "despacho"]),
    ("parecer-mp", ["sentenca", "decisao-interlocutoria", "despacho"]) ]

def NEUTRAL_TYPES : List String :=
  [ "despacho", "decisao-interlocutoria", "certidao", "certidao-publicacao",
    "oficio", "portaria", "memorando", "parecer-tecnico",
    "lixo", "lixo-procuracao", "lixo-substabelecimento", "lixo-societario",
    "lixo-fianca", "lixo-capa", "lixo-certidao-publicacao",
    "lixo-ato-ordinatorio", "lixo-termo-abertura", "unknown" ]

def RESPONSE_TYPES : List String :=
  [ "impugnacao", "contestacao", "contrarrazoes", "contrarrazoes-admin",
    "defesa-admin", "impugnacao-admin", "resposta-fazenda", "sentenca-edcl" ]

def INITIATOR_TYPES : List String :=
  [ "inicial-eef", "inicial-execfiscal", "inicial-ms", "peticao-inicial", "auto-infracao" ]

/-- `seg.classification_confidence || 0.5` (0 is falsy in JS). -/
def confOf (seg : L2Segment) : ℚ :=
  match seg.classification_confidence with
  | some c => if c = 0 then 1 / 2 else c
  | none => 1 / 2

/-- `assignedInicialTypes[t]` (0 when absent). -/
def assignedGet (m : List (String × Nat)) (k : String) : Nat :=
  match m.find? (fun e => e.1 = k) with
  | some e => e.2
  | none => 0

/-- `assignedInicialTypes[t] = (assignedInicialTypes[t] || 0) + 1`. -/
def assignedBump (m : List (String × Nat)) (k : String) : List (String × Nat) :=
  match m.find? (fun e => e.1 = k) with
  | some _ => m.map (fun e => if e.1 = k then (e.1, e.2 + 1) else e)
  | none => m ++ [(k, 1)]

/-- `t.startsWith('inicial-')`. -/
def startsWithInicial (t : String) : Bool := t.data.take 8 = "inicial-".data

/-- `/embargos?\s+.*execu/i` (tested against the PDF classification's
indicator strings). -/
def l2EefIndicatorRe : RE :=
  reCat [ciLit "embargo", RE.opt (ciLit "s"), wsPlus, RE.star reDot, ciLit "execu"]

/-- The per-run context of stage 5.6: the PDF-level classification
(`pdfType = pdfClassification.primary_type || ''`, the raw confidence and
indicator list), the extracted pages, and the L1 classifier invoked by
the secondary branch (`segClassifierL2.classify` — the heading/tail
options it receives are recomputed inside `classify` from the cleaned
text, so the callback depends on the segment text only). -/
structure L2Ctx where
  pdfType : String
  pdfConfidence : Option ℚ
  pdfIndicators : List String
  pages : List PageIn
  classify : Str → ClassifyOut

/-- The PDF-context condition of the `inicial-execfiscal → inicial-eef`
override:
`pdfType === 'inicial-eef' || (pdfClassification.indicators || []).some(ind => /embargos?\s+.*execu/i.test(ind))`. -/
def l2EefContext (ctx : L2Ctx) : Bool :=
  ctx.pdfType = "inicial-eef" ||
    ctx.pdfIndicators.any (fun ind => reTest l2EefIndicatorRe ind.data)

/-- `segPages.map(p => p.text || '').join('\n')` for a segment's range. -/
def l2SegText (pages : List PageIn) (seg : L2Segment) : Str :=
  joinNl ((pages.filter (fun p =>
    seg.page_start ≤ p.page_number && p.page_number ≤ seg.page_end)).map (·.text))

/-- The secondary-type rescue branch of one stage 5.6 iteration (the
`if (newConfidence < currentConfidence && newConfidence < 0.5)` block):
when the boosted confidence dropped below 0.5 the L1 classifier is
re-invoked on the segment text and a boosted secondary type may replace
the segment's classification.  Factored out of `l2Step` with the values
it closes over passed explicitly. -/
def l2SecondaryRescue (ctx : L2Ctx) (j : Nat) (prevType : Option String) (seg : L2Segment)
    (currentType : String) (currentConfidence newConfidence boost : ℚ)
    (reasons : List String) : Option L2Segment :=
  if newConfidence < currentConfidence && newConfidence < 1 / 2 then
    let segText := l2SegText ctx.pages seg
    if (jsTrim segText).length ≥ 50 then
      let reClass := ctx.classify segText
      match reClass.secondary_type with
      | some secType =>
        if secType ≠ "unknown" then
          let secBoost : ℚ :=
            (match prevType with
             | some pt =>
               match TRANSITIONS.find? (fun e => e.1 = pt) with
               | some e => if e.2.contains secType then 15 / 100 else 0
               | none => 0
             | none => 0) +
            (if j = 0 && INITIATOR_TYPES.contains secType then 10 / 100 else 0)
          let boostedSecondary := min 1 (round2 (reClass.secondary_confidence + secBoost))
          if boostedSecondary > newConfidence then
            some { seg with
                    doc_type := secType
                    classification_confidence := some boostedSecondary
                    classification_source := "per-segment-L2"
                    classification_indicators := reClass.indicators
                    l2_previous_type := some currentType
                    l2_boost := some boost
                    l2_reasons := reasons
                    cascade_level := some 2 }
          else none
        else none
      | none => none
    else none
  else none

/-- One iteration of the stage 5.6 loop over `pieceSegments` (the E2E
driver, stage 5.6 block, lines 241-329), in source order.  `j` is the
piece index, `prevType` is `pieceSegments[j-1].doc_type` as mutated by
the previous iterations, `assigned` is `assignedInicialTypes`. -/
def l2Step (ctx : L2Ctx) (j : Nat) (prevType : Option String)
    (assigned : List (String × Nat)) (seg : L2Segment) : L2Segment × List (String × Nat) :=
  -- `if (!seg.doc_type || seg.doc_type === 'unknown') continue;`
  if seg.doc_type = "" || seg.doc_type = "unknown" then (seg, assigned)
  else
    let currentType := seg.doc_type
    let currentConfidence := confOf seg
    -- transition boost (`prevType` must be truthy and both non-neutral)
    let p1 : ℚ × List String :=
      match prevType with
      | some pt =>
        if pt ≠ "" && !(NEUTRAL_TYPES.contains currentType) && !(NEUTRAL_TYPES.contains pt) then
          match TRANSITIONS.find? (fun e => e.1 = pt) with
          | some e =>
            if e.2.contains currentType then (15 / 100, ["probable-after-" ++ pt])
            else if INITIATOR_TYPES.contains currentType then
              (-(20 / 100), ["impossible-initiator-after-" ++ pt])
            else (0, [])
          | none => (0, [])
        else (0, [])
      | none => (0, [])
    -- index-0 boosts (both checks run)
    let p2 : ℚ × List String :=
      if j = 0 && RESPONSE_TYPES.contains currentType then (-(15 / 100), ["response-at-start"])
      else (0, [])
    let p3 : ℚ × List String :=
      if j = 0 && INITIATOR_TYPES.contains currentType then (10 / 100, ["initiator-at-start"])
      else (0, [])
    -- duplicate `inicial-*` bookkeeping
    let dup := startsWithInicial currentType && assignedGet assigned currentType > 0
    let p4 : ℚ × List String :=
      if dup then (-(25 / 100), ["duplicate-" ++ currentType]) else (0, [])
    let assigned1 :=
      if startsWithInicial currentType then assignedBump assigned currentType else assigned
    -- PDF-context override: `inicial-execfiscal` promoted to `inicial-eef`
    if currentType = "inicial-execfiscal" && l2EefContext ctx then
      -- `Math.max(currentConfidence, pdfClassification.confidence || 0.7)`
      let pdfConf := match ctx.pdfConfidence with
                     | some c => if c = 0 then 7 / 10 else c
                     | none => 7 / 10
      ({ seg with
          doc_type := "inicial-eef"
          classification_confidence := some (max currentConfidence pdfConf)
          classification_source := "per-segment-L2"
          l2_previous_type := some currentType
          l2_boost := some 0
          l2_reasons := ["pdf-context-eef-overrides-execfiscal"]
          cascade_level := some 2 },
        if startsWithInicial currentType then assignedBump assigned1 currentType else assigned1)
    else
      let p5 : ℚ × List String :=
        if currentType = "inicial-eef" && ctx.pdfType = "inicial-eef" then
          (5 / 100, ["pdf-context-confirms-eef"])
        else (0, [])
      let p6 : ℚ × List String :=
        if currentType = ctx.pdfType && currentConfidence < 8 / 10 then
          (10 / 100, ["pdf-segment-agreement"])
        else (0, [])
      let boost := p1.1 + p2.1 + p3.1 + p4.1 + p5.1 + p6.1
      let reasons := p1.2 ++ p2.2 ++ p3.2 ++ p4.2 ++ p5.2 ++ p6.2
      -- `if (boost === 0) continue;`
      if boost = 0 then (seg, assigned1)
      else
        -- `Math.min(1, Math.max(0, Math.round((currentConfidence + boost) * 100) / 100))`
        let newConfidence := min 1 (max 0 (round2 (currentConfidence + boost)))
        match l2SecondaryRescue ctx j prevType seg currentType currentConfidence
            newConfidence boost reasons with
        | some reclassified => (reclassified, assigned1)
        | none =>
          ({ seg with
              classification_confidence := some newConfidence
              classification_source := "per-segment-L2"
              l2_boost := some boost
              l2_reasons := reasons
              cascade_level := some 2 },
            assigned1)

def l2PassGo (ctx : L2Ctx) : Nat → Option String → List (String × Nat) → List L2Segment →
    List L2Segment
  | _, _, _, [] => []
  | j, prevType, assigned, seg :: rest =>
    if seg.type = "separator" then
      seg :: l2PassGo ctx j prevType assigned rest
    else
      let r := l2Step ctx j prevType assigned seg
      r.1 :: l2PassGo ctx (j + 1) (some r.1.doc_type) r.2 rest

/-- Embeds the stage 5.6 block applied to one file's segment array:
separators are skipped (and keep their place); the pieces are visited in
order with the piece index, the mutated previous piece's type, and the
`assignedInicialTypes` map threaded through. -/
def l2Pass (ctx : L2Ctx) (segments : List L2Segment) : List L2Segment :=
  -- `if (pieceSegments.length === 0) continue;`
  if (segments.filter (fun s => s.type ≠ "separator")).isEmpty then segments
  else l2PassGo ctx 0 none [] segments

/-! ### C1 — checkpoint checksum and resume (autosplit-pipeline.js)

`computeChecksum` is `sha256(JSON.stringify(obj, null, 2))` in hex;
SHA-256 is implemented below over `Nat` words reduced mod `2^32`. -/

def w32 (n : Nat) : Nat := n % 4294967296

def rotr32 (n x : Nat) : Nat := w32 ((x >>> n) ||| (x <<< (32 - n)))

def shaBigSigma0 (x : Nat) : Nat := (rotr32 2 x) ^^^ (rotr32 13 x) ^^^ (rotr32 22 x)

def shaBigSigma1 (x : Nat) : Nat := (rotr32 6 x) ^^^ (rotr32 11 x) ^^^ (rotr32 25 x)

def shaSmallSigma0 (x : Nat) : Nat := (rotr32 7 x) ^^^ (rotr32 18 x) ^^^ (x >>> 3)

def shaSmallSigma1 (x : Nat) : Nat := (rotr32 17 x) ^^^ (rotr32 19 x) ^^^ (x >>> 10)

def shaCh (x y z : Nat) : Nat := (x &&& y) ^^^ ((x ^^^ 0xFFFFFFFF) &&& z)

def shaMaj (x y z : Nat) : Nat := (x &&& y) ^^^ (x &&& z) ^^^ (y &&& z)

/-- The 64 SHA-256 round constants, in decimal (the fractional parts of
the cube roots of the first 64 primes, FIPS 180-4 section 4.2.2). -/
def sha256K : List Nat :=
  [ 1116352408, 1899447441, 3049323471, 3921009573, 961987163, 1508970993,
    2453635748, 2870763221, 3624381080, 310598401, 607225278, 1426881987,
    1925078388, 2162078206, 2614888103, 3248222580, 3835390401, 4022224774,
    264347078, 604807628, 770255983, 1249150122, 1555081692, 1996064986,
    2554220882, 2821834349, 2952996808, 3210313671, 3336571891, 3584528711,
    113926993, 338241895, 666307205, 773529912, 1294757372, 1396182291,
    1695183700, 1986661051, 2177026350, 2456956037, 2730485921, 2820302411,
    3259730800, 3345764771, 3516065817, 3600352804, 4094571909, 275423344,
    430227734, 506948616, 659060556, 883997877, 958139571, 1322822218,
    1537002063, 1747873779, 1955562222, 2024104815, 2227730452, 2361852424,
    2428436474, 2756734187, 3204031479, 3329325298 ]

structure Sha256State where
  a : Nat
  b : Nat
  c : Nat
  d : Nat
  e : Nat
  f : Nat
  g : Nat
  h : Nat

def sha256H0 : Sha256State :=
  ⟨0x6a09e667, 0xbb67ae85, 0x3c6ef372, 0xa54ff53a, 0x510e527f, 0x9b05688c, 0x1f83d9ab, 0x5be0cd19⟩

/-- UTF-8 bytes of one character (Node hashes the serialized JSON as
UTF-8). -/
def utf8Bytes (c : Char) : List Nat :=
  let n := c.toNat
  if n < 0x80 then [n]
  else if n < 0x800 then [0xC0 ||| (n >>> 6), 0x80 ||| (n &&& 0x3F)]
  else if n < 0x10000 then
    [0xE0 ||| (n >>> 12), 0x80 ||| ((n >>> 6) &&& 0x3F), 0x80 ||| (n &&& 0x3F)]
  else
    [0xF0 ||| (n >>> 18), 0x80 ||| ((n >>> 12) &&& 0x3F), 0x80 ||| ((n >>> 6) &&& 0x3F),
     0x80 ||| (n &&& 0x3F)]

def strUtf8 (s : Str) : List Nat := s.flatMap utf8Bytes

def beBytes8 (n : Nat) : List Nat :=
  [ (n >>> 56) &&& 0xFF, (n >>> 48) &&& 0xFF, (n >>> 40) &&& 0xFF, (n >>> 32) &&& 0xFF,
    (n >>> 24) &&& 0xFF, (n >>> 16) &&& 0xFF, (n >>> 8) &&& 0xFF, n &&& 0xFF ]

def sha256Pad (msg : List Nat) : List Nat :=
  let len := msg.length
  let zeros := (64 - ((len + 9) % 64)) % 64
  msg ++ [0x80] ++ List.replicate zeros 0 ++ beBytes8 (8 * len)

def chunkListGo {α : Type} : Nat → Nat → List α → List (List α)
  | 0, _, _ => []
  | _, _, [] => []
  | fuel + 1, k, l => l.take k :: chunkListGo fuel k (l.drop k)

def chunks {α : Type} (k : Nat) (l : List α) : List (List α) := chunkListGo (l.length + 1) k l

def bytesToWords (block : List Nat) : List Nat :=
  (chunks 4 block).map (fun b4 => b4.foldl (fun a b => 256 * a + b) 0)

def schedExtendGo : Nat → List Nat → List Nat
  | 0, w => w
  | k + 1, w =>
    let i := w.length
    let wi := w32 (shaSmallSigma1 (w.getD (i - 2) 0) + w.getD (i - 7) 0 +
      shaSmallSigma0 (w.getD (i - 15) 0) + w.getD (i - 16) 0)
    schedExtendGo k (w ++ [wi])

def sha256Schedule (w16 : List Nat) : List Nat := schedExtendGo 48 w16

def sha256Round (st : Sha256State) (ki wi : Nat) : Sha256State :=
  let t1 := w32 (st.h + shaBigSigma1 st.e + shaCh st.e st.f st.g + ki + wi)
  let t2 := w32 (shaBigSigma0 st.a + shaMaj st.a st.b st.c)
  ⟨w32 (t1 + t2), st.a, st.b, st.c, w32 (st.d + t1), st.e, st.f, st.g⟩

def sha256Block (st : Sha256State) (block : List Nat) : Sha256State :=
  let w := sha256Schedule (bytesToWords block)
  let e := (sha256K.zip w).foldl (fun s kw => sha256Round s kw.1 kw.2) st
  ⟨w32 (st.a + e.a), w32 (st.b + e.b), w32 (st.c + e.c), w32 (st.d + e.d),
   w32 (st.e + e.e), w32 (st.f + e.f), w32 (st.g + e.g), w32 (st.h + e.h)⟩

def wordBytes (w : Nat) : List Nat :=
  [(w >>> 24) &&& 0xFF, (w >>> 16) &&& 0xFF, (w >>> 8) &&& 0xFF, w &&& 0xFF]

/-- The 32-byte SHA-256 digest of a byte string. -/
def sha256Digest (msg : List Nat) : List Nat :=
  let st := (chunks 64 (sha256Pad msg)).foldl sha256Block sha256H0
  wordBytes st.a ++ wordBytes st.b ++ wordBytes st.c ++ wordBytes st.d ++
    wordBytes st.e ++ wordBytes st.f ++ wordBytes st.g ++ wordBytes st.h

def hexDigitCh (n : Nat) : Char := if n < 10 then Char.ofNat (48 + n) else Char.ofNat (87 + n)

def byteHex (b : Nat) : List Char := [hexDigitCh ((b / 16) % 16), hexDigitCh (b % 16)]

/-- `crypto.createHash('sha256').update(s).digest('hex')`. -/
def sha256hex (s : Str) : String := String.mk ((sha256Digest (strUtf8 s)).flatMap byteHex)

/-- One `stage_results` entry (`{ status, duration_ms, output_path }`). -/
structure StageResult where
  status : String
  duration_ms : Nat
  output_path : String
deriving DecidableEq, Repr

/-- The checkpoint payload written by `saveCheckpoint` (the fields of the
`checkpoint` object built in `runPipeline`, in insertion order, minus
`checksum`). -/
structure CheckpointData where
  pipeline_version : String
  source : String
  started_at : String
  current_stage : Nat
  completed_stages : List Nat
  stage_results : List (String × StageResult)
deriving DecidableEq, Repr

/-- A parsed `.checkpoint.json` of the well-formed shape `saveCheckpoint`
writes: the payload plus the stored `checksum` field. -/
structure RawCheckpoint where
  data : CheckpointData
  checksum : String
deriving DecidableEq, Repr

def jsonEscape (s : Str) : Str :=
  s.flatMap (fun c =>
    if c = '"' then ['\\', '"']
    else if c = '\\' then ['\\', '\\']
    else if c = '\n' then ['\\', 'n']
    else if c = '\r' then ['\\', 'r']
    else if c = '\t' then ['\\', 't']
    else [c])

def jsonStr (s : String) : Str := '"' :: (jsonEscape s.data ++ ['"'])

def nlIndent (n : Nat) : Str := '\n' :: List.replicate n ' '

def joinStr (sep : Str) : List Str → Str
  | [] => []
  | [x] => x
  | x :: rest => x ++ sep ++ joinStr sep rest

def serializeNatArray (ind : Nat) : List Nat → Str
  | [] => "[]".data
  | xs =>
    "[".data ++ joinStr ",".data (xs.map (fun x => nlIndent (ind + 2) ++ natDecimal x)) ++
      nlIndent ind ++ "]".data

def serializeStageResult (ind : Nat) (r : StageResult) : Str :=
  [Char.ofNat 0x7B] ++
    nlIndent (ind + 2) ++ jsonStr "status" ++ ": ".data ++ jsonStr r.status ++ ",".data ++
    nlIndent (ind + 2) ++ jsonStr "duration_ms" ++ ": ".data ++ natDecimal r.duration_ms ++ ",".data ++
    nlIndent (ind + 2) ++ jsonStr "output_path" ++ ": ".data ++ jsonStr r.output_path ++
    nlIndent ind ++ [Char.ofNat 0x7D]

def serializeStageResults (ind : Nat) : List (String × StageResult) → Str
  | [] => [Char.ofNat 0x7B, Char.ofNat 0x7D]
  | xs =>
    [Char.ofNat 0x7B] ++
      joinStr ",".data (xs.map (fun e =>
        nlIndent (ind + 2) ++ jsonStr e.1 ++ ": ".data ++ serializeStageResult (ind + 2) e.2)) ++
      nlIndent ind ++ [Char.ofNat 0x7D]

/-- `JSON.stringify(dataWithoutChecksum, null, 2)` for the checkpoint
shape (`saveCheckpoint` strips `checksum` before hashing). -/
def serializeCheckpoint (d : CheckpointData) : Str :=
  [Char.ofNat 0x7B] ++
    nlIndent 2 ++ jsonStr "pipeline_version" ++ ": ".data ++ jsonStr d.pipeline_version ++ ",".data ++
    nlIndent 2 ++ jsonStr "source" ++ ": ".data ++ jsonStr d.source ++ ",".data ++
    nlIndent 2 ++ jsonStr "started_at" ++ ": ".data ++ jsonStr d.started_at ++ ",".data ++
    nlIndent 2 ++ jsonStr "current_stage" ++ ": ".data ++ natDecimal d.current_stage ++ ",".data ++
    nlIndent 2 ++ jsonStr "completed_stages" ++ ": ".data ++ serializeNatArray 2 d.completed_stages ++ ",".data ++
    nlIndent 2 ++ jsonStr "stage_results" ++ ": ".data ++ serializeStageResults 2 d.stage_results ++
    nlIndent 0 ++ [Char.ofNat 0x7D]

/-- `computeChecksum` (autosplit-pipeline.js lines 272-275). -/
def computeChecksum (d : CheckpointData) : String := sha256hex (serializeCheckpoint d)

/-- The contents of the checkpoint file handed to `loadCheckpoint`:
`none` = the file does not exist; `some none` = `safeReadJSON` failed
(malformed JSON); `some (some raw)` = a parsed checkpoint of the
well-formed shape. -/
abbrev CheckpointFile := Option (Option RawCheckpoint)

/-- Embeds `loadCheckpoint` (autosplit-pipeline.js lines 291-313):
missing file → `null`; malformed JSON → warn, `null`; checksum mismatch
(`checksum !== computeChecksum(dataWithoutChecksum)`) → warn, `null`;
otherwise the checkpoint. -/
def loadCheckpoint (file : CheckpointFile) : Option RawCheckpoint :=
  match file with
  | none => none
  | some none => none
  | some (some raw) =>
    if raw.checksum = computeChecksum raw.data then some raw else none

/-- The outcome of `main`'s `--resume` branch
(autosplit-pipeline.js lines 1033-1057). -/
inductive ResumeOutcome where
  | cannotResume
  | resumed (c : RawCheckpoint)
deriving DecidableEq

/-- Embeds the `--resume` branch of `main`: when `loadCheckpoint` returns
`null` the pipeline logs `No valid checkpoint found — cannot resume` and
calls `process.exit(1)`; otherwise it runs the pipeline from the loaded
checkpoint. -/
def mainResume (file : CheckpointFile) : ResumeOutcome :=
  match loadCheckpoint file with
  | none => ResumeOutcome.cannotResume
  | some c => ResumeOutcome.resumed c

/-! ### C9 — the export loop's filenames -/

/-- The filenames `exportAll` emits for a segment list (each segment
contributing `(type, doc_type)`), in export order: `exportSegment` is
called with the running index. -/
def exportFilenames (segs : List (String × String)) : List Str :=
  segs.enum.map (fun e => generateFilename e.2.1 e.2.2 e.1)

/-! ### Named intermediate values (used to state the theorems below)

These name values that the embedded functions compute internally, so the
theorems can speak about them directly. -/

/-- The pre-propagation page profiles (the `profiles` array of
`profilePages` before its propagation loop). -/
def preProfiles (pages : List PageIn) : List PageProfile := pages.map basePageProfile

/-- `nonEmpty = profiles.filter(p => !p.empty)` of the propagation step,
over the pre-propagation profiles. -/
def nonEmptyPre (pages : List PageIn) : List PageProfile :=
  (preProfiles pages).filter (fun p => !p.empty)

/-- `degradedCount = nonEmpty.filter(p => p.is_degraded).length` of the
propagation step. -/
def degradedPreCount (pages : List PageIn) : Nat :=
  ((nonEmptyPre pages).filter (·.is_degraded)).length

/-- The median expression of `aggregatePageProfiles`:
`scores.sort((a,b) => a - b)[Math.floor(scores.length / 2)]` (the upper
middle element for an even count). -/
def codeMedian (scores : List Nat) : Nat :=
  (sortScoresAsc scores).getD (scores.length / 2) 0

/-! ### Concrete instances used by the counterexamples and witnesses -/

/-- A directory whose filesystem enumeration order is `b.pdf` before
`a.pdf` (with distinct content hashes). -/
def c3Listing : FsListing :=
  FsListing.cons (FsEntry.file "b.pdf".data "h1")
    (FsListing.cons (FsEntry.file "a.pdf".data "h2") FsListing.nil)

/-- A parsed checkpoint whose stored checksum is not a SHA-256 hex digest
(it has 8 characters, a digest has 64), so it cannot equal
`computeChecksum` of anything. -/
def c1Corrupt : RawCheckpoint :=
  ⟨⟨"1.3.0", "/in/a.pdf", "2026-02-16T00:00:00.000Z", 3, [1, 2],
    [("1", ⟨"completed", 5, "01-intake"⟩)]⟩, "deadbeef"⟩

/-- One line of ten short Portuguese function words (all on the signal-4
stoplist, none with four letters, none degraded-looking). -/
def c4CleanLine : Str := "que com por ser foi sua seu lei art dos".data

/-- Eight such lines: a page whose base profile is clean
(readability 79, low noise, zero garbage signals, 319 characters). -/
def c4CleanText : Str := joinNl (List.replicate 8 c4CleanLine)

/-- Two non-empty pages: a clean one and a degraded one (5 characters,
under the 50-character floor), so exactly 50% of the non-empty pages are
individually degraded. -/
def c4Pages : List PageIn := [⟨1, c4CleanText, false⟩, ⟨2, "curto".data, false⟩]

/-- A degraded page profile with readability 0. -/
def c5Low : PageProfile := ⟨1, 0, Noise.low, 0, "F", 0, true, false, none⟩

/-- A clean page profile with readability 100. -/
def c5High : PageProfile := ⟨2, 100, Noise.low, 0, "A", 400, false, false, none⟩

/-- Nine non-trivial lines; `carf` occurs only on the sixth line, outside
both the 5-line heading and the 3-line tail, and no other `recurso-carf`
pattern (nor any PJe footer pattern) occurs anywhere. -/
def c6Text : Str :=
  ("Primeira linha com texto de abertura\n" ++
   "Segunda linha com mais conteudo\n" ++
   "Terceira linha segue adiante\n" ++
   "Quarta linha do texto corrido\n" ++
   "Quinta linha fecha o cabecalho\n" ++
   "Sexta linha menciona o carf apenas aqui\n" ++
   "Setima linha retoma o texto\n" ++
   "Oitava linha continua o assunto\n" ++
   "Nona linha encerra o documento").data

/-- The entity-only score of the `recurso-carf` rule on `c6Text` before
disambiguation: one of four patterns matches the body only, so the raw
confidence is `round2(0.25 * 0.85) = 0.21`. -/
def c6BaseScore : RuleScore := ⟨"recurso-carf", 21 / 100, ["carf"], none⟩

/-- A segment already open when the segmenter meets a blank page. -/
def c7Seg0 : Segment := ⟨"seg-001", "piece", "sentenca", "boundary-rules", 1, 1, 9 / 10, []⟩

/-- The segmenter state holding `c7Seg0` as the current segment. -/
def c7St : SegState := ⟨[], some c7Seg0, 1, none⟩

/-- An L1 classifier that never offers a secondary type. -/
def c8Classify : Str → ClassifyOut := fun _ => ⟨none, 0, []⟩

/-- A stage-5.6 context with no PDF-level classification and no pages. -/
def c8Ctx : L2Ctx := ⟨"", none, [], [], c8Classify⟩

/-- A `sentenca` piece at confidence 0.6. -/
def c8SegA : L2Segment :=
  ⟨"piece", "sentenca", "per-segment-L1", some (6 / 10), [], none, none, [], none, 1, 1⟩

/-- An `edcl` piece at confidence 0.5: `edcl` follows `sentenca` in the
`TRANSITIONS` table, so every pass boosts it by +0.15. -/
def c8SegB : L2Segment :=
  ⟨"piece", "edcl", "per-segment-L1", some (1 / 2), [], none, none, [], none, 2, 2⟩

/-- `c8SegB` after one L2 pass: the `probable-after-sentenca` boost
lifts its confidence to `round2(0.5 + 0.15) = 0.65`. -/
def c8SegB1 : L2Segment :=
  { c8SegB with
    classification_confidence := some (65 / 100)
    classification_source := "per-segment-L2"
    l2_boost := some (15 / 100)
    l2_reasons := ["probable-after-sentenca"]
    cascade_level := some 2 }

/-- `c8SegB` after two L2 passes: the same boost is applied again,
`round2(0.65 + 0.15) = 0.80`. -/
def c8SegB2 : L2Segment :=
  { c8SegB with
    classification_confidence := some (80 / 100)
    classification_source := "per-segment-L2"
    l2_boost := some (15 / 100)
    l2_reasons := ["probable-after-sentenca"]
    cascade_level := some 2 }

/-! ## Theorems -/

/-! ### General helper lemmas -/

theorem foldl_add_eq_sum {α : Type} (f : α → Nat) (l : List α) :
    ∀ a : Nat, l.foldl (fun s q => s + f q) a = a + (l.map f).sum := by
  induction l with
  | nil => intro a; simp
  | cons x xs ih => intro a; simp [List.foldl_cons, ih, Nat.add_assoc]

/-! ### C2 — the batch QC merge is additive -/

/-- C2: for every list of per-PDF QC summaries (in particular for two or
more PDFs), the merged summary persisted by the report has each of the
four counters equal to the sum of that counter over all per-PDF QC
results — never only the last PDF's value. -/
theorem c2_qc_merge_additive (qcResults : List QcSummary) (h : 2 ≤ qcResults.length) :
    reportQc (some (mergeQcSummaries qcResults)) =
      ⟨(qcResults.map (·.passed)).sum, (qcResults.map (·.flagged)).sum,
       (qcResults.map (·.rejected)).sum, (qcResults.map (·.mislabels_caught)).sum⟩ := by
  simp [reportQc, mergeQcSummaries, foldl_add_eq_sum]

/-- C2 witness: the merge at the three per-PDF summaries of the batch
scenario yields the componentwise sums. -/
theorem c2_qc_merge_additive_witness :
    2 ≤ ([⟨3, 1, 0, 0⟩, ⟨2, 0, 1, 1⟩, ⟨5, 2, 0, 0⟩] : List QcSummary).length ∧
    reportQc (some (mergeQcSummaries [⟨3, 1, 0, 0⟩, ⟨2, 0, 1, 1⟩, ⟨5, 2, 0, 0⟩])) =
      ⟨(([⟨3, 1, 0, 0⟩, ⟨2, 0, 1, 1⟩, ⟨5, 2, 0, 0⟩] : List QcSummary).map (·.passed)).sum,
       (([⟨3, 1, 0, 0⟩, ⟨2, 0, 1, 1⟩, ⟨5, 2, 0, 0⟩] : List QcSummary).map (·.flagged)).sum,
       (([⟨3, 1, 0, 0⟩, ⟨2, 0, 1, 1⟩, ⟨5, 2, 0, 0⟩] : List QcSummary).map (·.rejected)).sum,
       (([⟨3, 1, 0, 0⟩, ⟨2, 0, 1, 1⟩, ⟨5, 2, 0, 0⟩] : List QcSummary).map (·.mislabels_caught)).sum⟩ :=
  ⟨by decide, c2_qc_merge_additive [⟨3, 1, 0, 0⟩, ⟨2, 0, 1, 1⟩, ⟨5, 2, 0, 0⟩] (by decide)⟩

/-! ### C10 — the garbage detector's early returns -/

/-- C10: a text whose trimmed length is under 30 characters, or that has
fewer than 5 whitespace-separated words after PJe-footer stripping, gets
word-garbage score exactly 0; consequently such a page never triggers the
rotation retry (score ≥ 0.4) and is never clamped by the hybrid merge
(score > 0.3), no matter how garbled its characters are. -/
theorem c10_short_text_never_garbage (t : Str) (pn : Nat) (e : Bool)
    (h : (jsTrim t).length < 30 ∨ (splitWs (stripPJeFooter t)).length < 5) :
    detectWordLevelGarbageSignals t = 0 ∧
    detectWordLevelGarbage t = 0 ∧
    rotationRetryTriggered ⟨pn, t, e⟩ = false ∧
    hybridGarbageClamped t = false := by
  have hs : detectWordLevelGarbageSignals t = 0 := by
    unfold detectWordLevelGarbageSignals
    rcases h with h | h
    · simp [h]
    · by_cases h30 : (jsTrim t).length < 30
      · simp [h30]
      · simp [h30, h]
  refine ⟨hs, ?_, ?_, ?_⟩
  · unfold detectWordLevelGarbage
    rw [hs]
    norm_num
  · unfold rotationRetryTriggered
    split
    · rfl
    · simp [hs]
  · unfold hybridGarbageClamped
    simp [hs]

/-- C10 witness: the two-character page `oi` is under every threshold. -/
theorem c10_short_text_never_garbage_witness :
    ((jsTrim "oi".data).length < 30 ∨ (splitWs (stripPJeFooter "oi".data)).length < 5) ∧
    (detectWordLevelGarbageSignals "oi".data = 0 ∧
     detectWordLevelGarbage "oi".data = 0 ∧
     rotationRetryTriggered ⟨1, "oi".data, false⟩ = false ∧
     hybridGarbageClamped "oi".data = false) :=
  ⟨Or.inl (by decide), c10_short_text_never_garbage "oi".data 1 false (Or.inl (by decide))⟩

/-! ### C1 — invalid checkpoints on `--resume` -/

theorem flatMap_byteHex_length (l : List Nat) : (l.flatMap byteHex).length = 2 * l.length := by
  induction l with
  | nil => simp
  | cons b rest ih => simp [List.flatMap_cons, ih, byteHex]; omega

theorem sha256Digest_length (msg : List Nat) : (sha256Digest msg).length = 32 := by
  unfold sha256Digest
  simp [wordBytes]

theorem sha256hex_length (s : Str) : (sha256hex s).length = 64 := by
  show ((sha256Digest (strUtf8 s)).flatMap byteHex).length = 64
  rw [flatMap_byteHex_length, sha256Digest_length]

/-- C1 counterexample: a checkpoint whose stored checksum cannot be the
recomputed SHA-256 (it is 8 characters long, a digest has 64) makes the
`--resume` invocation exit with failure (`No valid checkpoint found —
cannot resume`, `process.exit(1)`), and so does a malformed-JSON
checkpoint file — the pipeline does not restart from stage 1 in either
case. -/
theorem c1_counterexample :
    mainResume (some (some c1Corrupt)) = ResumeOutcome.cannotResume ∧
    mainResume (some none) = ResumeOutcome.cannotResume := by
  constructor
  · have h8 : c1Corrupt.checksum.length = 8 := by decide
    have hne : c1Corrupt.checksum ≠ computeChecksum c1Corrupt.data := by
      intro hEq
      rw [hEq, computeChecksum, sha256hex_length] at h8
      exact absurd h8 (by decide)
    simp [mainResume, loadCheckpoint, hne]
  · rfl

/-- C1 (amended): `loadCheckpoint` does treat a malformed or
checksum-mismatched checkpoint as absent (returning `null` with a
warning), but `main`'s `--resume` branch then fails with exit code 1
instead of restarting from stage 1: every checkpoint file whose stored
checksum differs from the recomputed one, and every malformed checkpoint
file, makes `--resume` terminate with `cannotResume`. -/
theorem c1_invalid_checkpoint_rejected (raw : RawCheckpoint)
    (hmismatch : raw.checksum ≠ computeChecksum raw.data) :
    loadCheckpoint (some (some raw)) = none ∧
    mainResume (some (some raw)) = ResumeOutcome.cannotResume ∧
    mainResume (some none) = ResumeOutcome.cannotResume := by
  have hl : loadCheckpoint (some (some raw)) = none := by
    simp [loadCheckpoint, hmismatch]
  exact ⟨hl, by simp [mainResume, hl], rfl⟩

/-- C1 witness: the corrupt checkpoint instance has a mismatched
checksum, and resuming from it fails. -/
theorem c1_invalid_checkpoint_rejected_witness :
    c1Corrupt.checksum ≠ computeChecksum c1Corrupt.data ∧
    (loadCheckpoint (some (some c1Corrupt)) = none ∧
     mainResume (some (some c1Corrupt)) = ResumeOutcome.cannotResume ∧
     mainResume (some none) = ResumeOutcome.cannotResume) := by
  have h8 : c1Corrupt.checksum.length = 8 := by decide
  have hne : c1Corrupt.checksum ≠ computeChecksum c1Corrupt.data := by
    intro hEq
    rw [hEq, computeChecksum, sha256hex_length] at h8
    exact absurd h8 (by decide)
  exact ⟨hne, c1_invalid_checkpoint_rejected c1Corrupt hne⟩

/-! ### C3 — intake enumeration order -/

theorem ingestLoop_files_sublist :
    ∀ (l : List (Str × String)) (db : List String), (ingestLoop l db).files.Sublist l := by
  intro l
  induction l with
  | nil => intro db; simp [ingestLoop]
  | cons p rest ih =>
    intro db
    obtain ⟨pp, ph⟩ := p
    unfold ingestLoop
    by_cases h : db.contains ph
    · simp only [h, if_true]
      exact (ih db).cons _
    · simp only [h, if_false, Bool.false_eq_true]
      exact (ih (ph :: db)).cons₂ _

theorem ingestLoop_files_eq :
    ∀ (l : List (Str × String)) (db : List String),
      (l.map Prod.snd).Nodup → (∀ p ∈ l, db.contains p.2 = false) →
      ingestLoop l db = ⟨l, []⟩ := by
  intro l
  induction l with
  | nil => intro db _ _; rfl
  | cons p rest ih =>
    intro db hnd hdb
    obtain ⟨pp, ph⟩ := p
    have hhead : db.contains ph = false := hdb (pp, ph) (List.mem_cons_self _ _)
    have hnd' : (rest.map Prod.snd).Nodup := (List.nodup_cons.mp (by simpa using hnd)).2
    have hnotin : ph ∉ rest.map Prod.snd := (List.nodup_cons.mp (by simpa using hnd)).1
    have hdb' : ∀ q ∈ rest, (ph :: db).contains q.2 = false := by
      intro q hq
      have h1 : db.contains q.2 = false := hdb q (List.mem_cons_of_mem _ hq)
      have h2 : q.2 ≠ ph := by
        intro hEq
        exact hnotin (hEq ▸ List.mem_map_of_mem Prod.snd hq)
      have h1' : q.2 ∉ db := by simpa using h1
      simp [List.contains_cons, h2, Ne.symm h2, h1']
    unfold ingestLoop
    simp only [hhead, if_false, Bool.false_eq_true, ih (ph :: db) hnd' hdb']

/-- C3 counterexample: with a directory whose filesystem enumeration
order is `b.pdf` before `a.pdf`, the manifest lists `d/b.pdf` before
`d/a.pdf` — `scanDirectory` never sorts, so the manifest order is not the
lexicographic path order the claim asserts. -/
theorem c3_counterexample :
    (ingestDirectory true "d".data c3Listing).files.map Prod.fst =
      ["d/b.pdf".data, "d/a.pdf".data] ∧
    strLeB "d/b.pdf".data "d/a.pdf".data = false := by
  exact ⟨by decide, by decide⟩

/-- C3 (amended): the manifest's `files` array lists the registered files
in the filesystem's enumeration order (the order `readdirSync` yields,
which `scanDirectory` preserves without sorting): it is always a sublist
of the scan order, and equals it exactly when the scanned files' content
hashes are pairwise distinct (no dedup skips). -/
theorem c3_manifest_enumeration_order (recursive : Bool) (src : Str) (entries : FsListing)
    (hnd : ((scanDirectory recursive src entries).map Prod.snd).Nodup) :
    (ingestDirectory recursive src entries).files.Sublist
      (scanDirectory recursive src entries) ∧
    (ingestDirectory recursive src entries).files = scanDirectory recursive src entries := by
  constructor
  · exact ingestLoop_files_sublist _ []
  · have h := ingestLoop_files_eq (scanDirectory recursive src entries) [] hnd
      (fun p _ => rfl)
    simp [ingestDirectory, h]

/-- C3 witness: a two-file directory with distinct hashes is registered
exactly in scan order. -/
theorem c3_manifest_enumeration_order_witness :
    ((scanDirectory true "d".data c3Listing).map Prod.snd).Nodup ∧
    ((ingestDirectory true "d".data c3Listing).files.Sublist
      (scanDirectory true "d".data c3Listing) ∧
     (ingestDirectory true "d".data c3Listing).files =
       scanDirectory true "d".data c3Listing) :=
  ⟨by decide, c3_manifest_enumeration_order true "d".data c3Listing (by decide)⟩

/-! ### C5 — the aggregated readability median -/

theorem sortScoresAsc_length (l : List Nat) : (sortScoresAsc l).length = l.length :=
  (List.perm_insertionSort _ _).length_eq

/-- In a `≤`-sorted list, the element at index `k` has at least `k + 1`
elements `≤` it and at least `length - k` elements `≥` it. -/
theorem sorted_nth_counts (s : List Nat) (hs : List.Sorted (· ≤ ·) s) (k : Nat)
    (hk : k < s.length) :
    k + 1 ≤ s.countP (fun x => decide (x ≤ s.getD k 0)) ∧
    s.length - k ≤ s.countP (fun x => decide (s.getD k 0 ≤ x)) := by
  have hget : s.getD k 0 = s[k] := List.getD_eq_getElem s 0 hk
  have hpair := List.pairwise_iff_getElem.mp hs
  constructor
  · have hall : ∀ x ∈ s.take (k + 1), (fun x => decide (x ≤ s.getD k 0)) x = true := by
      intro x hx
      obtain ⟨i, hi, hix⟩ := List.mem_iff_getElem.mp hx
      have hilen : i < s.length := by
        have := hi
        simp [List.length_take] at this
        omega
      have hix' : s[i] = x := by
        rw [← hix]
        exact (List.getElem_take _).symm
      simp only [decide_eq_true_eq]
      rw [hget, ← hix']
      rcases Nat.lt_or_ge i k with h | h
      · exact hpair i k hilen hk h
      · have hik : i = k := by
          have := hi
          simp [List.length_take] at this
          omega
        subst hik
        exact le_refl _
    have h1 : (s.take (k + 1)).countP (fun x => decide (x ≤ s.getD k 0)) =
        (s.take (k + 1)).length := List.countP_eq_length.mpr hall
    have h2 : (s.take (k + 1)).length = k + 1 := by
      simp [List.length_take]
      omega
    have h3 := List.Sublist.countP_le (fun x => decide (x ≤ s.getD k 0))
      (List.take_sublist (k + 1) s)
    omega
  · have hall : ∀ x ∈ s.drop k, (fun x => decide (s.getD k 0 ≤ x)) x = true := by
      intro x hx
      obtain ⟨i, hi, hix⟩ := List.mem_iff_getElem.mp hx
      have hilen : k + i < s.length := by
        have := hi
        simp [List.length_drop] at this
        omega
      have hix' : s[k + i] = x := by
        rw [← hix]
        exact (List.getElem_drop _).symm
      simp only [decide_eq_true_eq]
      rw [hget, ← hix']
      rcases Nat.eq_zero_or_pos i with h0 | h0
      · subst h0
        exact le_refl _
      · exact hpair k (k + i) hk hilen (by omega)
    have h1 : (s.drop k).countP (fun x => decide (s.getD k 0 ≤ x)) =
        (s.drop k).length := List.countP_eq_length.mpr hall
    have h2 : (s.drop k).length = s.length - k := by simp [List.length_drop]
    have h3 := List.Sublist.countP_le (fun x => decide (s.getD k 0 ≤ x))
      (List.drop_sublist k s)
    omega

/-- C5 counterexample: for the two pages with readability 0 and 100, the
code's aggregated readability is 100 (the upper middle element), while
the statistical median of the sorted scores is 50 — for an even page
count the aggregation does not take the statistical median. -/
theorem c5_counterexample :
    (aggregatePageProfiles [c5Low, c5High]).readability_score = 100 ∧
    specStatisticalMedian ([c5Low, c5High].map (·.readability_score)) = 50 ∧
    ((aggregatePageProfiles [c5Low, c5High]).readability_score : ℚ) ≠
      specStatisticalMedian ([c5Low, c5High].map (·.readability_score)) := by
  have h1 : (aggregatePageProfiles [c5Low, c5High]).readability_score = 100 := by decide
  have h2 : specStatisticalMedian ([c5Low, c5High].map (·.readability_score)) = 50 := by
    simp [specStatisticalMedian, sortScoresAsc, c5Low, c5High, List.insertionSort,
      List.orderedInsert, List.getD]
    norm_num
  refine ⟨h1, h2, ?_⟩
  rw [h1, h2]
  norm_num

/-- C5 (amended): the aggregated `readability_score` is the element at
index `⌊n/2⌋` of the ascending sorted per-page scores (the *upper*
middle element for even `n`, not the statistical median; the two agree
for odd `n`), `quality_tier` is derived from that value via the
A/B/C/D/F thresholds, and that value is a median in the counting sense:
at least half the scores are `≤` it and at least half are `≥` it. -/
theorem c5_median_upper_middle (ps : List PageProfile) (hne : ps ≠ []) :
    (aggregatePageProfiles ps).readability_score =
      codeMedian (ps.map (·.readability_score)) ∧
    (aggregatePageProfiles ps).quality_tier =
      getQualityTier (codeMedian (ps.map (·.readability_score))) ∧
    ((ps.map (·.readability_score)).length % 2 = 1 →
      (codeMedian (ps.map (·.readability_score)) : ℚ) =
        specStatisticalMedian (ps.map (·.readability_score))) ∧
    2 * ((ps.map (·.readability_score)).countP
        (fun x => decide (x ≤ codeMedian (ps.map (·.readability_score))))) ≥
      (ps.map (·.readability_score)).length + 1 ∧
    2 * ((ps.map (·.readability_score)).countP
        (fun x => decide (codeMedian (ps.map (·.readability_score)) ≤ x))) ≥
      (ps.map (·.readability_score)).length := by
  have hlen0 : ¬(ps.length = 0) := fun h => hne (List.length_eq_zero.mp h)
  have hslen : (ps.map (·.readability_score)).length = ps.length := List.length_map _ _
  have hk : (ps.map (·.readability_score)).length / 2 <
      (sortScoresAsc (ps.map (·.readability_score))).length := by
    rw [sortScoresAsc_length, hslen]
    omega
  have hsorted : List.Sorted (· ≤ ·) (sortScoresAsc (ps.map (·.readability_score))) :=
    List.sorted_insertionSort _ _
  have hcounts := sorted_nth_counts (sortScoresAsc (ps.map (·.readability_score)))
    hsorted ((ps.map (·.readability_score)).length / 2) hk
  have hmed : codeMedian (ps.map (·.readability_score)) =
      (sortScoresAsc (ps.map (·.readability_score))).getD
        ((ps.map (·.readability_score)).length / 2) 0 := rfl
  have hperm : List.Perm (sortScoresAsc (ps.map (·.readability_score)))
      (ps.map (·.readability_score)) :=
    List.perm_insertionSort _ _
  refine ⟨?_, ?_, ?_, ?_, ?_⟩
  · simp [aggregatePageProfiles, hlen0, codeMedian, sortScoresAsc_length]
  · simp [aggregatePageProfiles, hlen0, codeMedian, sortScoresAsc_length]
  · intro hodd
    rw [hslen] at hodd
    simp [specStatisticalMedian, codeMedian, hslen, hodd]
  · have h := hcounts.1
    rw [← hmed, hperm.countP_eq] at h
    omega
  · have h := hcounts.2
    rw [← hmed, hperm.countP_eq] at h
    rw [sortScoresAsc_length] at h
    omega

/-- C5 witness: at the three profiles with scores 30, 80, 10 the
aggregated readability is the sorted middle element. -/
theorem c5_median_upper_middle_witness :
    ([⟨1, 30, Noise.low, 0, "D", 60, true, false, none⟩,
      ⟨2, 80, Noise.low, 0, "A", 400, false, false, none⟩,
      ⟨3, 10, Noise.high, 5, "F", 20, true, false, none⟩] : List PageProfile) ≠ [] ∧
    ((aggregatePageProfiles [⟨1, 30, Noise.low, 0, "D", 60, true, false, none⟩,
        ⟨2, 80, Noise.low, 0, "A", 400, false, false, none⟩,
        ⟨3, 10, Noise.high, 5, "F", 20, true, false, none⟩]).readability_score =
      codeMedian (([⟨1, 30, Noise.low, 0, "D", 60, true, false, none⟩,
        ⟨2, 80, Noise.low, 0, "A", 400, false, false, none⟩,
        ⟨3, 10, Noise.high, 5, "F", 20, true, false, none⟩] : List PageProfile).map
          (·.readability_score)) ∧
     (aggregatePageProfiles [⟨1, 30, Noise.low, 0, "D", 60, true, false, none⟩,
        ⟨2, 80, Noise.low, 0, "A", 400, false, false, none⟩,
        ⟨3, 10, Noise.high, 5, "F", 20, true, false, none⟩]).quality_tier =
      getQualityTier (codeMedian (([⟨1, 30, Noise.low, 0, "D", 60, true, false, none⟩,
        ⟨2, 80, Noise.low, 0, "A", 400, false, false, none⟩,
        ⟨3, 10, Noise.high, 5, "F", 20, true, false, none⟩] : List PageProfile).map
          (·.readability_score))) ∧
     ((([⟨1, 30, Noise.low, 0, "D", 60, true, false, none⟩,
        ⟨2, 80, Noise.low, 0, "A", 400, false, false, none⟩,
        ⟨3, 10, Noise.high, 5, "F", 20, true, false, none⟩] : List PageProfile).map
          (·.readability_score)).length % 2 = 1 →
      (codeMedian (([⟨1, 30, Noise.low, 0, "D", 60, true, false, none⟩,
        ⟨2, 80, Noise.low, 0, "A", 400, false, false, none⟩,
        ⟨3, 10, Noise.high, 5, "F", 20, true, false, none⟩] : List PageProfile).map
          (·.readability_score)) : ℚ) =
        specStatisticalMedian (([⟨1, 30, Noise.low, 0, "D", 60, true, false, none⟩,
        ⟨2, 80, Noise.low, 0, "A", 400, false, false, none⟩,
        ⟨3, 10, Noise.high, 5, "F", 20, true, false, none⟩] : List PageProfile).map
          (·.readability_score))) ∧
     2 * ((([⟨1, 30, Noise.low, 0, "D", 60, true, false, none⟩,
        ⟨2, 80, Noise.low, 0, "A", 400, false, false, none⟩,
        ⟨3, 10, Noise.high, 5, "F", 20, true, false, none⟩] : List PageProfile).map
          (·.readability_score)).countP
        (fun x => decide (x ≤ codeMedian (([⟨1, 30, Noise.low, 0, "D", 60, true, false, none⟩,
        ⟨2, 80, Noise.low, 0, "A", 400, false, false, none⟩,
        ⟨3, 10, Noise.high, 5, "F", 20, true, false, none⟩] : List PageProfile).map
          (·.readability_score))))) ≥
      (([⟨1, 30, Noise.low, 0, "D", 60, true, false, none⟩,
        ⟨2, 80, Noise.low, 0, "A", 400, false, false, none⟩,
        ⟨3, 10, Noise.high, 5, "F", 20, true, false, none⟩] : List PageProfile).map
          (·.readability_score)).length + 1 ∧
     2 * ((([⟨1, 30, Noise.low, 0, "D", 60, true, false, none⟩,
        ⟨2, 80, Noise.low, 0, "A", 400, false, false, none⟩,
        ⟨3, 10, Noise.high, 5, "F", 20, true, false, none⟩] : List PageProfile).map
          (·.readability_score)).countP
        (fun x => decide (codeMedian (([⟨1, 30, Noise.low, 0, "D", 60, true, false, none⟩,
        ⟨2, 80, Noise.low, 0, "A", 400, false, false, none⟩,
        ⟨3, 10, Noise.high, 5, "F", 20, true, false, none⟩] : List PageProfile).map
          (·.readability_score)) ≤ x))) ≥
      (([⟨1, 30, Noise.low, 0, "D", 60, true, false, none⟩,
        ⟨2, 80, Noise.low, 0, "A", 400, false, false, none⟩,
        ⟨3, 10, Noise.high, 5, "F", 20, true, false, none⟩] : List PageProfile).map
          (·.readability_score)).length) :=
  ⟨by decide, c5_median_upper_middle _ (by decide)⟩

/-! ### C4 — the degraded-page propagation threshold -/

theorem basePageProfile_propagated (page : PageIn) :
    (basePageProfile page).propagated = none := rfl

/-- C4 counterexample: for the two non-empty pages of `c4Pages`, exactly
50% of the non-empty pages are individually degraded (1 of 2) — the
claim's "at least 50%" trigger — yet propagation does not fire (the
code's condition is strictly more than 50%): the clean page stays clean
and no page gets a `propagated` flag. -/
theorem c4_counterexample :
    2 * degradedPreCount c4Pages = (nonEmptyPre c4Pages).length ∧
    (profilePages c4Pages).map (·.is_degraded) = [false, true] ∧
    (profilePages c4Pages).map (·.propagated) = [none, none] := by
  refine ⟨by decide, by decide, by decide⟩

/-- C4 (amended): propagation fires only when strictly more than 50% of
the non-empty pages are individually degraded; when it fires, every
non-empty page's profile gets `is_degraded = true` and `propagated` is
set on every non-empty page (not only the previously-clean ones) to the
single boolean `degradedCount < nonEmpty.length` (i.e. `true` exactly
when at least one page was clean before propagation); at 50% or below
the profiles are returned unchanged. -/
theorem c4_propagation_threshold (pages : List PageIn) (p : PageProfile)
    (hp : p ∈ profilePages pages) :
    (2 * degradedPreCount pages ≤ (nonEmptyPre pages).length →
      profilePages pages = preProfiles pages) ∧
    (2 * degradedPreCount pages > (nonEmptyPre pages).length → p.empty = false →
      p.is_degraded = true ∧
      p.propagated = some (decide (degradedPreCount pages < (nonEmptyPre pages).length))) := by
  constructor
  · intro hle
    have hnot : ¬(2 * ((((pages.map basePageProfile).filter
        (fun q => !q.empty)).filter (·.is_degraded)).length) >
        ((pages.map basePageProfile).filter (fun q => !q.empty)).length) := by
      unfold degradedPreCount nonEmptyPre preProfiles at hle
      exact not_lt.mpr hle
    simp only [profilePages, propagateDegraded, preProfiles]
    split
    · next hcond =>
      rw [Bool.and_eq_true, decide_eq_true_eq, decide_eq_true_eq] at hcond
      exact absurd hcond.2 hnot
    · rfl
  · intro hgt hempty
    unfold degradedPreCount nonEmptyPre preProfiles at hgt
    have hfire : profilePages pages = (pages.map basePageProfile).map (fun q =>
        if q.empty then q
        else
          { q with
            is_degraded := true
            propagated :=
              match q.propagated with
              | some true => some true
              | _ => some (decide (degradedPreCount pages < (nonEmptyPre pages).length)) }) := by
      simp only [profilePages, propagateDegraded]
      split
      · next hcond =>
        rfl
      · next hcond =>
        rw [Bool.and_eq_true, decide_eq_true_eq, decide_eq_true_eq] at hcond
        push_neg at hcond
        have hd : ((((pages.map basePageProfile).filter
            (fun q => !q.empty)).filter (·.is_degraded)).length) ≤
            ((pages.map basePageProfile).filter (fun q => !q.empty)).length :=
          List.length_filter_le _ _
        by_cases h0 : ((pages.map basePageProfile).filter (fun q => !q.empty)).length > 0
        · have := hcond h0
          omega
        · omega
    rw [hfire] at hp
    obtain ⟨q, hq, hpq⟩ := List.mem_map.mp hp
    obtain ⟨page, _, hqpage⟩ := List.mem_map.mp hq
    by_cases hqe : q.empty
    · rw [if_pos hqe] at hpq
      rw [← hpq] at hempty
      rw [hempty] at hqe
      exact absurd hqe (by decide)
    · rw [if_neg hqe] at hpq
      have hqprop : q.propagated = none := by
        rw [← hqpage]
        exact basePageProfile_propagated page
      rw [← hpq]
      refine ⟨rfl, ?_⟩
      show (match q.propagated with
            | some true => some true
            | _ => some (decide (degradedPreCount pages < (nonEmptyPre pages).length))) = _
      rw [hqprop]

/-- C4 witness: a single degraded non-empty page (100% degraded) fires
propagation with `propagated = some false`. -/
theorem c4_propagation_threshold_witness :
    ((⟨1, 40, Noise.low, 0, "C", 1, true, false, some false⟩ : PageProfile) ∈
      profilePages [⟨1, "x".data, false⟩]) ∧
    ((2 * degradedPreCount [⟨1, "x".data, false⟩] ≤
        (nonEmptyPre [(⟨1, "x".data, false⟩ : PageIn)]).length →
      profilePages [⟨1, "x".data, false⟩] = preProfiles [⟨1, "x".data, false⟩]) ∧
     (2 * degradedPreCount [⟨1, "x".data, false⟩] >
        (nonEmptyPre [(⟨1, "x".data, false⟩ : PageIn)]).length →
      (⟨1, 40, Noise.low, 0, "C", 1, true, false, some false⟩ : PageProfile).empty = false →
      (⟨1, 40, Noise.low, 0, "C", 1, true, false, some false⟩ : PageProfile).is_degraded = true ∧
      (⟨1, 40, Noise.low, 0, "C", 1, true, false, some false⟩ : PageProfile).propagated =
        some (decide (degradedPreCount [⟨1, "x".data, false⟩] <
          (nonEmptyPre [(⟨1, "x".data, false⟩ : PageIn)]).length)))) :=
  ⟨by decide, c4_propagation_threshold [⟨1, "x".data, false⟩] _ (by decide)⟩

/-! ### C7 — blank pages in the segmenter -/

/-- C7 counterexample: a document consisting of one blank page — whose
only boundary marker is `blank-page` — yields one segment: the first
page always opens a segment (`if (isNewPiece || !currentSegment)`), so a
blank first page does open a (separator) piece, against the claim's
"including the first page". -/
theorem c7_counterexample :
    (detectBoundaries [] 1).map Marker.rule = ["blank-page"] ∧
    (segmentPages none [⟨1, [], false⟩]).map
        (fun s => (s.segment_id, s.type, s.doc_type, s.page_start, s.page_end)) =
      [("seg-001", "separator", "separator", 1, 1)] := by
  have hname : (boundaryRules.filter
      (fun r => reTest r.pattern (extractHeading (stripPJeBlocks []) 3))).map
        (fun r => r.name) = ([] : List String) := by decide
  have hfil0 : boundaryRules.filter
      (fun r => reTest r.pattern (extractHeading (stripPJeBlocks []) 3)) = [] :=
    List.map_eq_nil_iff.mp hname
  have hstrip : stripPJeBlocks ([] : Str) = [] := rfl
  have hm : detectBoundaries [] 1 = [⟨"blank-page", 7 / 10, 1⟩] := by
    simp only [detectBoundaries]
    rw [hfil0]
    simp [hstrip]
  have hinf : inferSegmentType [⟨"blank-page", 7 / 10, 1⟩] none =
      ("separator", "separator", "boundary-rules") := by decide
  have hpn : extractParagraphNum (stripPJeBlocks ([] : Str)) true = none := by decide
  have hid : segIdOf 1 = "seg-001" := by decide
  refine ⟨by rw [hm]; rfl, ?_⟩
  simp only [segmentPages, List.foldl_cons, List.foldl_nil, segmentStep, hm, hinf, hpn]
  simp [hid]

/-- C7 (amended): at every position where a current segment is already
open, a page whose only boundary marker is `blank-page` never opens a
new piece: the step extends the current segment's `page_end` to that
page and leaves the segment list and counter unchanged (the running
paragraph number is updated as for any page).  Only the very first page
(no current segment) opens a segment regardless of markers. -/
theorem c7_blank_extends_current (classification : Option DocClassification)
    (st : SegState) (page : PageIn) (cs : Segment)
    (hcur : st.currentSegment = some cs)
    (hmark : (detectBoundaries page.text page.page_number).map Marker.rule = ["blank-page"]) :
    segmentStep classification st page =
      { st with
        currentSegment := some { cs with page_end := page.page_number }
        prevPageLastParaNum :=
          match extractParagraphNum (stripPJeBlocks page.text) true with
          | some n => some n
          | none => st.prevPageLastParaNum } := by
  obtain ⟨m, hm, hrule⟩ : ∃ m, detectBoundaries page.text page.page_number = [m] ∧
      m.rule = "blank-page" := by
    cases hdb : detectBoundaries page.text page.page_number with
    | nil =>
      rw [hdb] at hmark
      simp at hmark
    | cons m rest =>
      rw [hdb] at hmark
      simp only [List.map_cons, List.cons.injEq] at hmark
      have hrest : rest = [] := List.map_eq_nil_iff.mp hmark.2
      exact ⟨m, by rw [hrest], hmark.1⟩
  simp only [segmentStep, hm, List.any_cons, List.any_nil, Bool.or_false, hrule, hcur]
  simp

/-- C7 witness: with segment `c7Seg0` open, a blank page 2 extends it to
`page_end = 2` without opening a new segment. -/
theorem c7_blank_extends_current_witness :
    c7St.currentSegment = some c7Seg0 ∧
    (detectBoundaries ([] : Str) 2).map Marker.rule = ["blank-page"] ∧
    segmentStep none c7St ⟨2, [], false⟩ =
      { c7St with
        currentSegment := some { c7Seg0 with page_end := 2 }
        prevPageLastParaNum :=
          match extractParagraphNum (stripPJeBlocks ([] : Str)) true with
          | some n => some n
          | none => c7St.prevPageLastParaNum } :=
  ⟨rfl, by decide,
   c7_blank_extends_current none c7St ⟨2, [], false⟩ c7Seg0 rfl (by decide)⟩

/-! ### C6 — the entity-mention-only disambiguation penalty -/

/-- `Math.round(x * 100) / 100` overshoots `x` by at most half a cent. -/
theorem round2_le_half_cent (x : ℚ) : round2 x ≤ x + 1 / 200 := by
  unfold round2 jsRound
  have h := Int.floor_le (x * 100 + 1 / 2)
  have h100 : (0 : ℚ) < 100 := by norm_num
  rw [div_le_iff₀ h100]
  linarith

/-- C6 counterexample: on `c6Text` the `recurso-carf` rule scores raw
confidence 0.21 (`carf` matches the body only), the entity-mention-only
penalty cuts it to `round2(0.21 * 0.3) = 0.06`, but the specificity
bonus applied *after* the penalty lifts the reported confidence to
0.11 — above the claimed bound `0.30 * 0.21 = 0.063`. -/
theorem c6_counterexample :
    classifyRuleScore recursoCarfRule (some recursoCarfDisamb) c6Text =
      some ⟨"recurso-carf", 11 / 100, ["carf"], some "entity-mention-only"⟩ ∧
    ruleBaseScore recursoCarfRule c6Text (classifyHeading c6Text) (classifyTail c6Text) =
      some ⟨"recurso-carf", 21 / 100, ["carf"], none⟩ ∧
    ¬((11 : ℚ) / 100 ≤ (3 / 10) * (21 / 100)) := by
  have hstrip : stripPJeBlocks c6Text = c6Text := by decide
  have htrim : ¬((jsTrim c6Text).length < 50) := by decide
  have hb1 : patTest patCarf c6Text = true := by decide
  have hb2 : patTest patConselhoAdmin c6Text = false := by decide
  have hb3 : patTest patRecursoVoluntario c6Text = false := by decide
  have hb4 : patTest patRecorrente c6Text = false := by decide
  have hh1 : patTest patCarf (classifyHeading c6Text) = false := by decide
  have hh2 : patTest patConselhoAdmin (classifyHeading c6Text) = false := by decide
  have hh3 : patTest patRecursoVoluntario (classifyHeading c6Text) = false := by decide
  have hh4 : patTest patRecorrente (classifyHeading c6Text) = false := by decide
  have ht1 : patTest patCarf (classifyTail c6Text) = false := by decide
  have ht2 : patTest patConselhoAdmin (classifyTail c6Text) = false := by decide
  have ht3 : patTest patRecursoVoluntario (classifyTail c6Text) = false := by decide
  have ht4 : patTest patRecorrente (classifyTail c6Text) = false := by decide
  have hhne : (classifyHeading c6Text).isEmpty = false := by decide
  have htne : (classifyTail c6Text).isEmpty = false := by decide
  have hbodyfil : recursoCarfRule.patterns.filter (fun p => patTest p c6Text) = [patCarf] := by
    simp [recursoCarfRule, List.filter_cons, hb1, hb2, hb3, hb4]
  have hheadfil : recursoCarfRule.patterns.filter
      (fun p => patTest p (classifyHeading c6Text)) = [] := by
    simp [recursoCarfRule, List.filter_cons, hh1, hh2, hh3, hh4]
  have htailfil : recursoCarfRule.patterns.filter
      (fun p => patTest p (classifyTail c6Text)) = [] := by
    simp [recursoCarfRule, List.filter_cons, ht1, ht2, ht3, ht4]
  have hd2 : (["carf"] : List String).eraseDups = ["carf"] := by decide
  have hbase : ruleBaseScore recursoCarfRule c6Text (classifyHeading c6Text)
      (classifyTail c6Text) = some ⟨"recurso-carf", 21 / 100, ["carf"], none⟩ := by
    simp only [ruleBaseScore, hbodyfil, hheadfil, htailfil, hhne, htne,
      Bool.false_eq_true, if_false, List.append_nil, List.map_cons, List.map_nil]
    simp only [patCarf, hd2]
    simp only [List.isEmpty_cons, Bool.false_eq_true, if_false, recursoCarfRule]
    simp only [RuleScore.mk.injEq, Option.some.injEq]
    norm_num [round2, jsRound]
  have hstrany : recursoCarfDisamb.structural.any
      (fun p => patTest p (classifyHeading c6Text)) = false := by
    simp [recursoCarfDisamb, hh2, hh3]
  have hstrbody : recursoCarfDisamb.structural.any (fun p => patTest p c6Text) = false := by
    simp [recursoCarfDisamb, hb2, hb3]
  have hem : (decide (recursoCarfDisamb.entityOnly.length > 0) &&
      (["carf"] : List String).all
        (fun src => recursoCarfDisamb.entityOnly.any
          (fun e => e.source = src || patTest e src.data))) = true := by decide
  have harith2 : round2 ((21 : ℚ) / 100 * (3 / 10)) = 6 / 100 := by
    unfold round2 jsRound
    norm_num
  have hdis : applyDisambiguation recursoCarfDisamb c6Text (classifyHeading c6Text)
      ⟨"recurso-carf", 21 / 100, ["carf"], none⟩ =
      ⟨"recurso-carf", 6 / 100, ["carf"], some "entity-mention-only"⟩ := by
    simp only [applyDisambiguation, hstrany, hstrbody, hem, Bool.and_false,
      Bool.false_eq_true, if_false, Bool.not_false, Bool.and_true, if_true, harith2]
  have harith3 : round2 (min 1 ((6 : ℚ) / 100 + 5 / 100)) = 11 / 100 := by
    rw [min_eq_right (by norm_num : (6 : ℚ) / 100 + 5 / 100 ≤ 1)]
    unfold round2 jsRound
    norm_num
  have hfinal : applySpecificity ⟨"recurso-carf", 6 / 100, ["carf"], some "entity-mention-only"⟩ =
      ⟨"recurso-carf", 11 / 100, ["carf"], some "entity-mention-only"⟩ := by
    have hcont : specificityOrder.contains "recurso-carf" = true := by decide
    simp only [applySpecificity, hcont, if_true, harith3]
  refine ⟨?_, hbase, by norm_num⟩
  simp only [classifyRuleScore, hstrip]
  rw [if_neg htrim, hbase]
  simp [hdis, hfinal]

/-- C6 (amended): when every matched indicator of a rule is covered by
its `entityOnly` patterns and no `structural` pattern matches the
cleaned text or the heading, the disambiguation step sets the
confidence to `round2(0.30 · conf)` — at most `0.30 · conf + 0.005`
(rounding) — and marks the score `entity-mention-only`.  The claim's
bound on the *reported* confidence fails only because the specificity
bonus (+0.05 before re-rounding) is applied after this penalty for
types on the specificity list. -/
theorem c6_entity_only_penalty (d : DisambRule) (cleanedText heading : Str) (s : RuleScore)
    (hent : 0 < d.entityOnly.length)
    (hall : s.indicators.all
        (fun src => d.entityOnly.any (fun e => e.source = src || patTest e src.data)) = true)
    (hbody : d.structural.all (fun p => !patTest p cleanedText) = true)
    (hhead : d.structural.all (fun p => !patTest p heading) = true) :
    applyDisambiguation d cleanedText heading s =
      { s with confidence := round2 (s.confidence * (3 / 10))
               disambiguation := some "entity-mention-only" } ∧
    round2 (s.confidence * (3 / 10)) ≤ s.confidence * (3 / 10) + 1 / 200 := by
  refine ⟨?_, round2_le_half_cent _⟩
  have h1 : d.structural.any (fun p => patTest p heading) = false := by
    rw [List.any_eq_false]
    intro p hp
    have h := List.all_eq_true.mp hhead p hp
    simp only [Bool.not_eq_true'] at h
    simp [h]
  have h2 : d.structural.any (fun p => patTest p cleanedText) = false := by
    rw [List.any_eq_false]
    intro p hp
    have h := List.all_eq_true.mp hbody p hp
    simp only [Bool.not_eq_true'] at h
    simp [h]
  unfold applyDisambiguation
  simp [h1, h2, hall, hent]

/-- C6 witness: the `recurso-carf` disambiguation entry applied to a
score whose only indicator is the entity mention `carf`. -/
theorem c6_entity_only_penalty_witness :
    0 < recursoCarfDisamb.entityOnly.length ∧
    c6BaseScore.indicators.all
        (fun src => recursoCarfDisamb.entityOnly.any
          (fun e => e.source = src || patTest e src.data)) = true ∧
    recursoCarfDisamb.structural.all (fun p => !patTest p "carf".data) = true ∧
    recursoCarfDisamb.structural.all (fun p => !patTest p ([] : Str)) = true ∧
    (applyDisambiguation recursoCarfDisamb "carf".data [] c6BaseScore =
      { c6BaseScore with confidence := round2 (c6BaseScore.confidence * (3 / 10))
                         disambiguation := some "entity-mention-only" } ∧
     round2 (c6BaseScore.confidence * (3 / 10)) ≤
       c6BaseScore.confidence * (3 / 10) + 1 / 200) :=
  ⟨by decide, by decide, by decide, by decide,
   c6_entity_only_penalty recursoCarfDisamb "carf".data [] c6BaseScore
     (by decide) (by decide) (by decide) (by decide)⟩

/-! ### C8 — the L2 reclassification pass -/

theorem c8_step_A : l2Step c8Ctx 0 none [] c8SegA = (c8SegA, []) := by
  simp only [l2Step]
  norm_num +decide [c8Ctx, c8SegA, confOf, startsWithInicial, assignedGet, l2EefContext,
    NEUTRAL_TYPES, RESPONSE_TYPES, INITIATOR_TYPES, List.find?, List.contains]

theorem c8_step_B : l2Step c8Ctx 1 (some "sentenca") [] c8SegB = (c8SegB1, []) := by
  simp only [l2Step]
  norm_num +decide [c8Ctx, c8SegB, c8SegB1, confOf, startsWithInicial, assignedGet,
    l2EefContext, l2SecondaryRescue, NEUTRAL_TYPES, RESPONSE_TYPES, INITIATOR_TYPES,
    TRANSITIONS, List.find?, List.contains, round2, jsRound]

theorem c8_step_B_again : l2Step c8Ctx 1 (some "sentenca") [] c8SegB1 = (c8SegB2, []) := by
  simp only [l2Step]
  norm_num +decide [c8Ctx, c8SegB, c8SegB1, c8SegB2, confOf, startsWithInicial, assignedGet,
    l2EefContext, l2SecondaryRescue, NEUTRAL_TYPES, RESPONSE_TYPES, INITIATOR_TYPES,
    TRANSITIONS, List.find?, List.contains, round2, jsRound]

theorem c8_pass_once : l2Pass c8Ctx [c8SegA, c8SegB] = [c8SegA, c8SegB1] := by
  have hfe : ¬((([c8SegA, c8SegB] : List L2Segment).filter
      (fun s => s.type ≠ "separator")).isEmpty = true) := by decide
  have hsepA : (c8SegA.type = "separator") = False := by simp [c8SegA]
  have hsepB : (c8SegB.type = "separator") = False := by simp [c8SegB]
  have hdocA : c8SegA.doc_type = "sentenca" := rfl
  simp only [l2Pass]
  rw [if_neg hfe]
  simp only [l2PassGo, hsepA, hsepB, if_false, c8_step_A, hdocA]
  rw [show (0 + 1) = 1 from rfl, c8_step_B]

theorem c8_pass_twice : l2Pass c8Ctx [c8SegA, c8SegB1] = [c8SegA, c8SegB2] := by
  have hfe : ¬((([c8SegA, c8SegB1] : List L2Segment).filter
      (fun s => s.type ≠ "separator")).isEmpty = true) := by decide
  have hsepA : (c8SegA.type = "separator") = False := by simp [c8SegA]
  have hsepB : (c8SegB1.type = "separator") = False := by simp [c8SegB1, c8SegB]
  have hdocA : c8SegA.doc_type = "sentenca" := rfl
  simp only [l2Pass]
  rw [if_neg hfe]
  simp only [l2PassGo, hsepA, hsepB, if_false, c8_step_A, hdocA]
  rw [show (0 + 1) = 1 from rfl, c8_step_B_again]

/-- C8 counterexample: on the two-piece array `sentenca` (0.6) then
`edcl` (0.5), one L2 pass boosts `edcl` to 0.65 (`probable-after-
sentenca`, +0.15); a second pass applies the same boost again and yields
0.80 — the pass is not idempotent on classification confidence (the
doc_types are unchanged). -/
theorem c8_counterexample :
    l2Pass c8Ctx [c8SegA, c8SegB] = [c8SegA, c8SegB1] ∧
    l2Pass c8Ctx (l2Pass c8Ctx [c8SegA, c8SegB]) = [c8SegA, c8SegB2] ∧
    c8SegB1.classification_confidence = some (65 / 100) ∧
    c8SegB2.classification_confidence = some (80 / 100) ∧
    c8SegB1.classification_confidence ≠ c8SegB2.classification_confidence := by
  refine ⟨c8_pass_once, ?_, rfl, rfl, ?_⟩
  · rw [c8_pass_once]
    exact c8_pass_twice
  · simp only [c8SegB1, c8SegB2, Option.some.injEq]
    intro h
    have := Option.some.inj h
    norm_num at this

theorem l2SecondaryRescue_eq_none (ctx : L2Ctx) (j : Nat) (prev : Option String)
    (seg : L2Segment) (ct : String) (cc nc b : ℚ) (rs : List String)
    (hcl : ∀ t, (ctx.classify t).secondary_type = none) :
    l2SecondaryRescue ctx j prev seg ct cc nc b rs = none := by
  simp only [l2SecondaryRescue, hcl, ite_self]

theorem l2SecondaryRescue_fst_type (ctx : L2Ctx) (j : Nat) (prev : Option String)
    (seg : L2Segment) (ct : String) (cc nc b : ℚ) (rs : List String) (r : L2Segment)
    (h : l2SecondaryRescue ctx j prev seg ct cc nc b rs = some r) :
    r.type = seg.type := by
  simp only [l2SecondaryRescue] at h
  repeat' split at h
  all_goals try simp_all
  all_goals (rw [← h])

set_option maxHeartbeats 2000000 in
theorem l2Step_fst_type (ctx : L2Ctx) (j : Nat) (prev : Option String)
    (a : List (String × Nat)) (seg : L2Segment) :
    (l2Step ctx j prev a seg).1.type = seg.type := by
  simp only [l2Step]
  repeat' split
  all_goals try rfl
  all_goals (
    apply l2SecondaryRescue_fst_type
    assumption)

set_option maxHeartbeats 2000000 in
theorem l2Step_fst_docType (ctx : L2Ctx) (j : Nat) (prev : Option String)
    (a : List (String × Nat)) (seg : L2Segment)
    (hcl : ∀ t, (ctx.classify t).secondary_type = none) :
    (l2Step ctx j prev a seg).1.doc_type =
      if seg.doc_type = "inicial-execfiscal" ∧ l2EefContext ctx = true then "inicial-eef"
      else seg.doc_type := by
  simp only [l2Step, l2SecondaryRescue_eq_none ctx j prev seg _ _ _ _ _ hcl]
  repeat' split
  all_goals try rfl
  all_goals simp_all

theorem l2Step_docType_idem (ctx : L2Ctx)
    (hcl : ∀ t, (ctx.classify t).secondary_type = none)
    (j j2 : Nat) (prev prev2 : Option String) (a a2 : List (String × Nat)) (seg : L2Segment) :
    (l2Step ctx j2 prev2 a2 (l2Step ctx j prev a seg).1).1.doc_type =
      (l2Step ctx j prev a seg).1.doc_type := by
  rw [l2Step_fst_docType ctx j2 prev2 a2 _ hcl, l2Step_fst_docType ctx j prev a seg hcl]
  by_cases h : seg.doc_type = "inicial-execfiscal" ∧ l2EefContext ctx = true
  · rw [if_pos h, ite_self]
  · rw [if_neg h]
    exact if_neg h

theorem l2PassGo_type_map (ctx : L2Ctx) :
    ∀ (segs : List L2Segment) (j : Nat) (prev : Option String) (a : List (String × Nat)),
      (l2PassGo ctx j prev a segs).map (·.type) = segs.map (·.type) := by
  intro segs
  induction segs with
  | nil => intro j prev a; rfl
  | cons seg rest ih =>
    intro j prev a
    simp only [l2PassGo]
    split
    · simp only [List.map_cons, ih]
    · simp only [List.map_cons, ih, l2Step_fst_type]

theorem l2PassGo_docType_stable (ctx : L2Ctx)
    (hcl : ∀ t, (ctx.classify t).secondary_type = none) :
    ∀ (segs : List L2Segment) (j : Nat) (prev : Option String) (a a2 : List (String × Nat)),
      (l2PassGo ctx j prev a2 (l2PassGo ctx j prev a segs)).map (·.doc_type) =
        (l2PassGo ctx j prev a segs).map (·.doc_type) := by
  intro segs
  induction segs with
  | nil => intro j prev a a2; rfl
  | cons seg rest ih =>
    intro j prev a a2
    simp only [l2PassGo]
    split
    · next hsep =>
      simp only [l2PassGo, hsep, if_true, List.map_cons, ih]
    · next hsep =>
      simp only [l2PassGo]
      rw [if_neg (by rw [l2Step_fst_type]; exact hsep)]
      simp only [List.map_cons]
      rw [l2Step_docType_idem ctx hcl]
      rw [ih]

/-- C8 (amended): the doc_type assignments of stage 5.6 are stable when
the L1 classifier offers no secondary type (the only way the pass
rewrites a doc_type besides the deterministic `inicial-execfiscal →
inicial-eef` override): a second pass maps every segment to the same
`doc_type` and `type` as the first.  Idempotence of the confidences is
false — boosts are re-applied on every pass (see the counterexample). -/
theorem c8_doc_types_stable (ctx : L2Ctx) (segments : List L2Segment)
    (hcl : ∀ t, (ctx.classify t).secondary_type = none) :
    (l2Pass ctx (l2Pass ctx segments)).map (·.doc_type) =
      (l2Pass ctx segments).map (·.doc_type) ∧
    (l2Pass ctx (l2Pass ctx segments)).map (·.type) = segments.map (·.type) := by
  unfold l2Pass
  by_cases hempty : ((segments.filter (fun s => s.type ≠ "separator")).isEmpty = true)
  · rw [if_pos hempty, if_pos hempty]
    exact ⟨rfl, rfl⟩
  · rw [if_neg hempty]
    have htm := l2PassGo_type_map ctx segments 0 none []
    have hemp2 : ¬(((l2PassGo ctx 0 none [] segments).filter
        (fun s => s.type ≠ "separator")).isEmpty = true) := by
      intro hc
      apply hempty
      have h1 : ((l2PassGo ctx 0 none [] segments).filter
          (fun s => s.type ≠ "separator")).length =
          ((segments.filter (fun s => s.type ≠ "separator"))).length := by
        rw [← List.countP_eq_length_filter, ← List.countP_eq_length_filter]
        have e1 : (l2PassGo ctx 0 none [] segments).countP (fun s => s.type ≠ "separator") =
            ((l2PassGo ctx 0 none [] segments).map (·.type)).countP
              (fun t => decide (t ≠ "separator")) := by
          rw [List.countP_map]
          rfl
        have e2 : segments.countP (fun s => s.type ≠ "separator") =
            (segments.map (·.type)).countP (fun t => decide (t ≠ "separator")) := by
          rw [List.countP_map]
          rfl
        rw [e1, e2, htm]
      rw [List.isEmpty_iff_length_eq_zero] at hc ⊢
      omega
    rw [if_neg hemp2]
    refine ⟨l2PassGo_docType_stable ctx hcl segments 0 none [] [], ?_⟩
    rw [l2PassGo_type_map, l2PassGo_type_map]

/-- C8 witness: the single-piece array `[c8SegA]` under the classifier
that never offers a secondary type. -/
theorem c8_doc_types_stable_witness :
    (∀ t, (c8Ctx.classify t).secondary_type = none) ∧
    ((l2Pass c8Ctx (l2Pass c8Ctx [c8SegA])).map (·.doc_type) =
      (l2Pass c8Ctx [c8SegA]).map (·.doc_type) ∧
     (l2Pass c8Ctx (l2Pass c8Ctx [c8SegA])).map (·.type) = [c8SegA].map (·.type)) :=
  ⟨fun _ => rfl, c8_doc_types_stable c8Ctx [c8SegA] (fun _ => rfl)⟩

/-! ### C9 — markdown filenames -/

theorem decDigitChar_isDigit (n : Nat) : (decDigitChar n).isDigit = true := by
  unfold decDigitChar
  split <;> decide

theorem natDecimalAux_all_digits :
    ∀ fuel n, (natDecimalAux fuel n).all Char.isDigit = true := by
  intro fuel
  induction fuel with
  | zero => intro n; rfl
  | succ f ih =>
    intro n
    unfold natDecimalAux
    by_cases h : n < 10
    · simp [h, decDigitChar_isDigit]
    · simp [h, List.all_append, ih, decDigitChar_isDigit]

theorem natDecimal_all_digits (n : Nat) : (natDecimal n).all Char.isDigit = true :=
  natDecimalAux_all_digits _ _

theorem natDecimalAux_length :
    ∀ fuel n k, n < 10 ^ (k + 1) → (natDecimalAux fuel n).length ≤ k + 1 := by
  intro fuel
  induction fuel with
  | zero => intro n k _; simp [natDecimalAux]
  | succ f ih =>
    intro n k h
    unfold natDecimalAux
    by_cases h10 : n < 10
    · simp [h10]
    · simp only [h10, if_false, Bool.false_eq_true, List.length_append, List.length_cons,
        List.length_nil]
      cases k with
      | zero =>
        exact absurd h (by simpa using h10)
      | succ k2 =>
        have hdiv : n / 10 < 10 ^ (k2 + 1) := by
          have h1 : n < 10 ^ (k2 + 1) * 10 := by
            rw [← pow_succ]
            exact h
          exact (Nat.div_lt_iff_lt_mul (by norm_num)).mpr h1
        have h2 := ih (n / 10) k2 hdiv
        omega

theorem natDecimal_length_le_three (n : Nat) (h : n ≤ 999) : (natDecimal n).length ≤ 3 :=
  natDecimalAux_length _ n 2 (by omega)

theorem padStart3_length (s : Str) (h : s.length ≤ 3) : (padStart3 s).length = 3 := by
  simp [padStart3]
  omega

theorem padStart3_all_digits (s : Str) (h : s.all Char.isDigit = true) :
    (padStart3 s).all Char.isDigit = true := by
  simp only [padStart3, List.all_append, h, Bool.and_true]
  simp only [List.all_eq_true]
  intro c hc
  rw [List.eq_of_mem_replicate hc]
  decide

theorem takeWhile_append_stop {p : Char → Bool} :
    ∀ (l : Str) (c : Char) (r : Str), l.all p = true → p c = false →
      (l ++ c :: r).takeWhile p = l := by
  intro l
  induction l with
  | nil =>
    intro c r _ hc
    simp [List.takeWhile_cons, hc]
  | cons a as ih =>
    intro c r h hc
    simp only [List.all_cons, Bool.and_eq_true] at h
    simp [List.takeWhile_cons, h.1, ih c r h.2 hc]

theorem decValue_append_digit (ds : Str) (c : Char) :
    decValue (ds ++ [c]) = 10 * decValue ds + (c.toNat - 48) := by
  simp [decValue, List.foldl_append]

theorem decDigitChar_valueBack (n : Nat) (h : n < 10) : (decDigitChar n).toNat - 48 = n := by
  interval_cases n <;> decide

theorem decValue_natDecimalAux :
    ∀ fuel n, n < fuel → decValue (natDecimalAux fuel n) = n := by
  intro fuel
  induction fuel with
  | zero => intro n h; omega
  | succ f ih =>
    intro n h
    unfold natDecimalAux
    by_cases h10 : n < 10
    · simp only [h10, if_true]
      simp [decValue]
      exact decDigitChar_valueBack n h10
    · rw [if_neg h10, decValue_append_digit, ih (n / 10) (by omega),
        decDigitChar_valueBack (n % 10) (Nat.mod_lt _ (by norm_num))]
      omega

theorem decValue_natDecimal (n : Nat) : decValue (natDecimal n) = n :=
  decValue_natDecimalAux _ _ (Nat.lt_succ_self n)

theorem decValue_cons_zero (t : Str) : decValue ('0' :: t) = decValue t := by
  have h : 10 * 0 + ('0'.toNat - 48) = 0 := by decide
  show List.foldl (fun a c => 10 * a + (c.toNat - 48)) (10 * 0 + ('0'.toNat - 48)) t =
    List.foldl (fun a c => 10 * a + (c.toNat - 48)) 0 t
  rw [h]

theorem decValue_padStart3 (s : Str) : decValue (padStart3 s) = decValue s := by
  unfold padStart3
  generalize 3 - s.length = k
  induction k with
  | zero => rfl
  | succ m ih => rw [List.replicate_succ, List.cons_append, decValue_cons_zero, ih]

theorem generateFilename_digits (ty dt : String) (i : Nat) :
    (generateFilename ty dt i).takeWhile Char.isDigit = padStart3 (natDecimal (i + 1)) := by
  have hall : (padStart3 (natDecimal (i + 1))).all Char.isDigit = true :=
    padStart3_all_digits _ (natDecimal_all_digits _)
  have hdash : Char.isDigit '-' = false := by decide
  show (padStart3 (natDecimal (i + 1)) ++
      ('-' :: (if ty = "" then "piece" else ty).data) ++
      ('-' :: (if dt = "" then "unknown" else dt).data) ++ ".md".data).takeWhile Char.isDigit =
    padStart3 (natDecimal (i + 1))
  simp only [List.append_assoc, List.cons_append]
  exact takeWhile_append_stop _ _ _ hall hdash

theorem generateFilename_inj_index (t1 d1 t2 d2 : String) (i j : Nat)
    (h : generateFilename t1 d1 i = generateFilename t2 d2 j) : i = j := by
  have h1 := generateFilename_digits t1 d1 i
  have h2 := generateFilename_digits t2 d2 j
  rw [h] at h1
  rw [h1] at h2
  have h3 := congrArg decValue h2
  rw [decValue_padStart3, decValue_padStart3, decValue_natDecimal, decValue_natDecimal] at h3
  omega

theorem exportFilenames_nodup (segs : List (String × String)) :
    (exportFilenames segs).Nodup := by
  unfold exportFilenames
  have h1 : (segs.enum.map Prod.fst).Nodup := by
    rw [List.enum_map_fst]
    exact List.nodup_range _
  exact (List.Nodup.of_map _ h1).map_on (fun x hx y hy hf =>
    List.inj_on_of_nodup_map h1 hx hy
      (generateFilename_inj_index _ _ _ _ _ _ hf))

/-- C9 counterexample: `decisao-admin-1inst` is on the `VALID_TYPES`
whitelist yet contains the digit `1`, so its filename fails
`^[0-9]{3}-[a-z-]+-[a-z-]+\.md$`; and from the 1000th segment on the
number prefix has four digits, which also fails the pattern. -/
theorem c9_counterexample :
    "decisao-admin-1inst" ∈ VALID_TYPES ∧
    matchesMdFilename (generateFilename "piece" "decisao-admin-1inst" 0) = false ∧
    matchesMdFilename (generateFilename "piece" "sentenca" 999) = false := by
  refine ⟨by decide, by decide, by decide⟩

/-- C9 (amended): for a segment type and doc_type that are nonempty and
use only `[a-z-]` (not every `VALID_TYPES` entry does), and an index
below 999, the emitted filename matches
`^[0-9]{3}-[a-z-]+-[a-z-]+\.md$`; and the filenames of one export run
are pairwise distinct for every segment list whatsoever (the decimal
index prefix is injective). -/
theorem c9_filenames (ty dt : String) (i : Nat) (segs : List (String × String))
    (hty : ty.data ≠ [] ∧ ty.data.all isLowerHyphen = true)
    (hdt : dt.data ≠ [] ∧ dt.data.all isLowerHyphen = true)
    (hi : i < 999) :
    matchesMdFilename (generateFilename ty dt i) = true ∧
    (exportFilenames segs).Nodup := by
  refine ⟨?_, exportFilenames_nodup segs⟩
  have hty0 : ¬(ty = "") := fun hEq => hty.1 (by rw [hEq])
  have hdt0 : ¬(dt = "") := fun hEq => hdt.1 (by rw [hEq])
  have hlen : (natDecimal (i + 1)).length ≤ 3 := natDecimal_length_le_three _ (by omega)
  have hplen : (padStart3 (natDecimal (i + 1))).length = 3 := padStart3_length _ hlen
  have hall : (padStart3 (natDecimal (i + 1))).all Char.isDigit = true :=
    padStart3_all_digits _ (natDecimal_all_digits _)
  obtain ⟨a, b, c, habc⟩ := List.length_eq_three.mp hplen
  have hgen : generateFilename ty dt i =
      a :: b :: c :: '-' :: ((ty.data ++ '-' :: dt.data) ++ ".md".data) := by
    show padStart3 (natDecimal (i + 1)) ++
        ('-' :: (if ty = "" then "piece" else ty).data) ++
        ('-' :: (if dt = "" then "unknown" else dt).data) ++ ".md".data = _
    rw [if_neg hty0, if_neg hdt0, habc]
    simp [List.append_assoc, List.cons_append]
  rw [habc] at hall
  simp only [List.all_cons, List.all_nil, Bool.and_eq_true, Bool.and_true] at hall
  rw [hgen]
  have hrev : (((ty.data ++ '-' :: dt.data) ++ ".md".data)).reverse =
      'd' :: 'm' :: '.' :: (ty.data ++ '-' :: dt.data).reverse := by
    rw [List.reverse_append]
    rfl
  obtain ⟨t0, ts, hts⟩ : ∃ t0 ts, ty.data = t0 :: ts := by
    cases hc : ty.data with
    | nil => exact absurd hc hty.1
    | cons t0 ts => exact ⟨t0, ts, rfl⟩
  obtain ⟨d0, ds, hds⟩ : ∃ d0 ds, dt.data = d0 :: ds := by
    cases hc : dt.data with
    | nil => exact absurd hc hdt.1
    | cons d0 ds => exact ⟨d0, ds, rfl⟩
  have hcontains : '-' ∈ (ty.data ++ '-' :: dt.data).tail.dropLast := by
    rw [hts, hds]
    rw [show ((t0 :: ts) ++ '-' :: d0 :: ds).tail = ts ++ '-' :: d0 :: ds from rfl]
    rw [List.dropLast_append_cons, List.dropLast_cons₂]
    exact List.mem_append_right _ (List.mem_cons_self _ _)
  have hdashlh : isLowerHyphen '-' = true := by decide
  have hmid : (ty.data ++ '-' :: dt.data).all isLowerHyphen = true := by
    simp [List.all_append, List.all_cons, hty.2, hdt.2, hdashlh]
  simp only [matchesMdFilename, hrev, List.reverse_reverse]
  simp [hall.1, hall.2.1, hall.2.2, hmid, hcontains]

/-- C9 witness: `001-piece-sentenca.md` matches the pattern, and a
two-segment export has distinct filenames. -/
theorem c9_filenames_witness :
    (("piece" : String).data ≠ [] ∧ ("piece" : String).data.all isLowerHyphen = true) ∧
    (("sentenca" : String).data ≠ [] ∧ ("sentenca" : String).data.all isLowerHyphen = true) ∧
    0 < 999 ∧
    (matchesMdFilename (generateFilename "piece" "sentenca" 0) = true ∧
     (exportFilenames [("piece", "sentenca"), ("attachment", "anexo")]).Nodup) :=
  ⟨⟨by decide, by decide⟩, ⟨by decide, by decide⟩, by decide,
   c9_filenames "piece" "sentenca" 0 [("piece", "sentenca"), ("attachment", "anexo")]
     ⟨by decide, by decide⟩ ⟨by decide, by decide⟩ (by decide)⟩

end AiosCore
